import Mathlib

/-!
Verification of the Plinko theoretical-RTP calculator
(`apps/backend/calculate_plinko_rtp.py`).

The script computes exact binomial probabilities with Python `Decimal`
arithmetic at `getcontext().prec = 50` and aggregates them against
hardcoded multiplier tables.  We model a `Decimal` value by its exact
rational value; every arithmetic operation of the `decimal` module
produces the correctly rounded result at 50 significant digits with
rounding mode `ROUND_HALF_EVEN`, which we model by `decRound`.
The `float(...)` conversions on the results are modelled by `floatRound`,
correct rounding to 53 significant binary digits (IEEE-754 binary64 in
the normal range, round to nearest, ties to even).
-/

namespace PlinkoRtp

/-- Round a rational to the nearest integer, ties to even
(the `ROUND_HALF_EVEN` rounding of Python `decimal`). -/
def rndHE (x : ℚ) : ℤ :=
  if x - ⌊x⌋ < 1 / 2 then ⌊x⌋
  else if (1 : ℚ) / 2 < x - ⌊x⌋ then ⌊x⌋ + 1
  else if ⌊x⌋ % 2 = 0 then ⌊x⌋ else ⌊x⌋ + 1

/-- Round `q` to `prec` significant base-`b` digits, half-even: the result is
`m * b ^ e` where `e = Int.log b |q| - (prec - 1)` and `m` is the half-even
rounding of `q * b ^ (-e)`. -/
def roundAt (b prec : ℕ) (q : ℚ) : ℚ :=
  if q = 0 then 0
  else ((rndHE (q * (b : ℚ) ^ (((prec : ℤ) - 1) - Int.log b |q|)) : ℤ) : ℚ) *
       (b : ℚ) ^ (Int.log b |q| - ((prec : ℤ) - 1))

/-- Rounding performed by every `Decimal` arithmetic operation of the script:
50 significant decimal digits (`getcontext().prec = 50`), half-even. -/
def decRound (q : ℚ) : ℚ := roundAt 10 50 q

/-- Rounding performed by `float(...)`: 53 significant bits (binary64,
normal range), round to nearest, ties to even. -/
def floatRound (q : ℚ) : ℚ := roundAt 2 53 q

/-- Decimal `+` at context precision 50. -/
def dAdd (x y : ℚ) : ℚ := decRound (x + y)

/-- Decimal `-` at context precision 50. -/
def dSub (x y : ℚ) : ℚ := decRound (x - y)

/-- Decimal `*` at context precision 50. -/
def dMul (x y : ℚ) : ℚ := decRound (x * y)

/-- Decimal `**` with an integral exponent at context precision 50. -/
def dPow (x : ℚ) (k : ℤ) : ℚ := decRound (x ^ k)

/-- Relative-error unit of `decRound`: half an ulp at 50 significant digits. -/
def u10 : ℚ := (10 : ℚ) ^ (-(49 : ℤ)) / 2

/-- Relative-error unit of `floatRound`: half an ulp at 53 significant bits. -/
def u2 : ℚ := (2 : ℚ) ^ (-(52 : ℤ)) / 2

/-- Exceptions that the Python code in `binomial_probability` can raise:
`ValueError` from `math.comb` on a negative argument, and the `decimal`
module's `InvalidOperation` (trapped by default). -/
inductive PyError where
  | valueError
  | invalidOperation
deriving DecidableEq

/-- Model of `binomial_probability(n, k, p)` (lines 26-40 of the script):
`comb(n, k)` raises `ValueError` when `n < 0` or `k < 0` and returns the exact
integer `C(n, k)` otherwise (`0` when `k > n`); `p ** k` raises
`InvalidOperation` when `p = 0` and `k = 0`; `(1 - p) ** (n - k)` raises for
`p = 1` when `n = k` (zero to the power zero), and for `p = 1`, `n < k` the
multiplication `0 * Infinity` raises.  Otherwise the result is
`combinations * p_success * p_failure` with each `Decimal` operation rounded
at 50 significant digits. -/
def binomial_probability (n k : ℤ) (p : ℚ) : Except PyError ℚ :=
  if n < 0 ∨ k < 0 then .error .valueError
  else if p = 0 ∧ k = 0 then .error .invalidOperation
  else if p = 1 ∧ n ≤ k then .error .invalidOperation
  else
    let combinations : ℚ := (Nat.choose n.toNat k.toNat : ℚ)
    let p_success : ℚ := dPow p k
    let p_failure : ℚ := dPow (dSub 1 p) (n - k)
    .ok (dMul (dMul combinations p_success) p_failure)

/-- The `Decimal('0.499975')` HIGH-risk bias constant (line 24). -/
def LEFT_PROBABILITY : ℚ := 499975 / 1000000

/-- The hardcoded HIGH-risk multiplier tables (lines 14-21); each float entry
converted through `Decimal(str(m))` (line 73) denotes exactly the decimal
literal shown in the source. -/
def MULTIPLIER_TABLES : List (ℤ × List ℚ) :=
  [(11, [120, 14, 5.2, 1.4, 0.4, 0.2, 0.2, 0.4, 1.4, 5.2, 14, 120]),
   (12, [170, 24, 8.1, 2, 0.7, 0.2, 0.2, 0.2, 0.7, 2, 8.1, 24, 170]),
   (13, [260, 37, 11, 4, 1, 0.2, 0.2, 0.2, 0.2, 1, 4, 11, 37, 260]),
   (14, [420, 56, 18, 5, 1.9, 0.3, 0.2, 0.2, 0.2, 0.3, 1.9, 5, 18, 56, 420]),
   (15, [620, 83, 27, 8, 3, 0.5, 0.2, 0.2, 0.2, 0.2, 0.5, 3, 8, 27, 83, 620]),
   (16, [1000, 130, 26, 9, 4, 2, 0.2, 0.2, 0.2, 0.2, 0.2, 2, 4, 9, 26, 130, 1000])]

/-- Observable outcome of one `calculate_rtp(rows)` call: the two `Decimal`
accumulators, whether the total-probability warning line was printed
(line 89-90), and the `float(total_rtp)` value actually returned (line 92). -/
structure RTPResult where
  total_rtp : ℚ
  total_prob : ℚ
  warned : Bool
  returned : ℚ
deriving DecidableEq

/-- Failure modes of `calculate_rtp`: the `KeyError` of the dict lookup on
line 50, or an exception propagated from `binomial_probability`. -/
inductive CalcError where
  | keyError
  | pyError (e : PyError)
deriving DecidableEq

/-- The accumulation loop of `calculate_rtp` (lines 64-77), iterating
`bucket_index` over the given index list with accumulators
`(total_rtp, total_prob)`. -/
def rtpGo (rows : ℤ) (multipliers : List ℚ) :
    List ℕ → ℚ → ℚ → Except PyError (ℚ × ℚ)
  | [], total_rtp, total_prob => .ok (total_rtp, total_prob)
  | bucket_index :: rest, total_rtp, total_prob =>
    match binomial_probability rows (bucket_index : ℤ) LEFT_PROBABILITY with
    | .error e => .error e
    | .ok prob =>
      let multiplier := multipliers.getD bucket_index 0
      let contribution := dMul prob multiplier
      rtpGo rows multipliers rest (dAdd total_rtp contribution) (dAdd total_prob prob)

/-- Model of `calculate_rtp(rows)` (lines 42-92): look up the multiplier
table (raising `KeyError` for an unknown row count), loop over
`range(len(multipliers))` accumulating `total_rtp` and `total_prob`, record
whether `abs(float(total_prob) - 1.0) > 0.0001` printed the warning, and
return `float(total_rtp)`. -/
def calculate_rtp (rows : ℤ) : Except CalcError RTPResult :=
  match MULTIPLIER_TABLES.lookup rows with
  | none => .error .keyError
  | some multipliers =>
    match rtpGo rows multipliers (List.range multipliers.length) 0 0 with
    | .error e => .error (.pyError e)
    | .ok (total_rtp, total_prob) =>
      .ok { total_rtp := total_rtp
            total_prob := total_prob
            warned := decide (floatRound (1 / 10000) <
                        |floatRound (floatRound total_prob - 1)|)
            returned := floatRound total_rtp }

/-- Status banner chosen by the summary loop of `main` (lines 116-121). -/
inductive Status where
  | playerAdvantage
  | okNearTarget
  | okPlain
deriving DecidableEq

/-- Classification of a returned RTP value in `main` (lines 116-121);
`0.99` is the binary64 value of that source literal. -/
def classify (rtp : ℚ) : Status :=
  if 1 < rtp then .playerAdvantage
  else if floatRound (99 / 100) < rtp then .okNearTarget
  else .okPlain

/-- Model of `negative_edge_count` (line 132): the number of results with
`rtp > 1.0`. -/
def negative_edge_count (results : List ℚ) : ℕ :=
  (results.filter fun rtp => decide (1 < rtp)).length

/-- The row counts `main` iterates over (line 102). -/
def mainRows : List ℤ := [11, 12, 13, 14, 15, 16]

/-- Value computed by `binomial_probability` on its non-raising path, as a
function of natural-number arguments. -/
def bprob (n k : ℕ) (p : ℚ) : ℚ :=
  dMul (dMul (Nat.choose n k : ℚ) (dPow p k)) (dPow (dSub 1 p) ((n : ℤ) - k))

/-- Result value of `binomial_probability` as seen through the public
`probability` interface: the `Decimal` on success; the default is never used
on the non-raising paths. -/
def probOf (n k : ℤ) (p : ℚ) : ℚ :=
  ((binomial_probability n k p).toOption).getD 0

/-- Statement that `x` approximates the exact value `t` to within `j`
accumulated half-ulp rounding factors of the 50-digit decimal context. -/
def relB (j : ℕ) (x t : ℚ) : Prop :=
  t * (1 - u10) ^ j ≤ x ∧ x ≤ t * (1 + u10) ^ j

/-- The exact binomial term approximated by `bprob`. -/
def exactTerm (n k : ℕ) (p : ℚ) : ℚ :=
  (Nat.choose n k : ℚ) * p ^ k * (1 - p) ^ (n - k)

/-- The `total_prob` accumulator produced by the loop of `calculate_rtp`. -/
def tpFold (rows count : ℕ) : ℚ :=
  (List.range count).foldl (fun a i => dAdd a (bprob rows i LEFT_PROBABILITY)) 0

/-- The `total_rtp` accumulator produced by the loop of `calculate_rtp`. -/
def rtpFold (rows count : ℕ) (ms : List ℚ) : ℚ :=
  (List.range count).foldl
    (fun a i => dAdd a (dMul (bprob rows i LEFT_PROBABILITY) (ms.getD i 0))) 0

/-! Basic properties of half-even rounding. -/

lemma rndHE_abs_le (x : ℚ) : |((rndHE x : ℤ) : ℚ) - x| ≤ 1 / 2 := by
  have hf : ((⌊x⌋ : ℤ) : ℚ) ≤ x := Int.floor_le x
  have hf1 : x < ((⌊x⌋ : ℤ) : ℚ) + 1 := Int.lt_floor_add_one x
  unfold rndHE
  split
  · rw [abs_le]; constructor <;> linarith
  · split
    · rw [abs_le]; push_cast; constructor <;> linarith
    · split <;> (rw [abs_le]; push_cast; constructor <;> linarith)

lemma rndHE_intCast (n : ℤ) : rndHE (n : ℚ) = n := by
  unfold rndHE
  rw [Int.floor_intCast]
  rw [if_pos (by norm_num)]

lemma roundAt_zero (b prec : ℕ) : roundAt b prec 0 = 0 := by
  unfold roundAt; rw [if_pos rfl]

/-- Characterization of `Int.log` from two-sided power bounds. -/
lemma log_eq_of (b : ℕ) (hb : 1 < b) (q : ℚ) (E : ℤ) (h0 : 0 < q)
    (h1 : (b : ℚ) ^ E ≤ q) (h2 : q < (b : ℚ) ^ (E + 1)) : Int.log b q = E := by
  have hle : E ≤ Int.log b q := (Int.zpow_le_iff_le_log hb h0).mp h1
  have hgt : ¬(E + 1 ≤ Int.log b q) := by
    intro hc
    exact absurd ((Int.zpow_le_iff_le_log hb h0).mpr hc) (not_le.mpr h2)
  omega

/-- Relative error of `roundAt`: half an ulp of the `prec`-digit coefficient. -/
lemma roundAt_err (b prec : ℕ) (hb : 1 < b) (q : ℚ) :
    |roundAt b prec q - q| ≤ |q| * ((b : ℚ) ^ (1 - (prec : ℤ)) / 2) := by
  by_cases hq : q = 0
  · subst hq; simp [roundAt_zero]
  · have hbQ : (1 : ℚ) < (b : ℚ) := by exact_mod_cast hb
    have hb0 : (0 : ℚ) < (b : ℚ) := lt_trans one_pos hbQ
    have habs : 0 < |q| := abs_pos.mpr hq
    set L : ℤ := Int.log b |q| with hL
    have hlow : (b : ℚ) ^ L ≤ |q| := Int.zpow_log_le_self hb habs
    unfold roundAt
    rw [if_neg hq]
    set x : ℚ := q * (b : ℚ) ^ (((prec : ℤ) - 1) - L) with hx
    have hscale : ((rndHE x : ℤ) : ℚ) * (b : ℚ) ^ (L - ((prec : ℤ) - 1)) - q =
        (((rndHE x : ℤ) : ℚ) - x) * (b : ℚ) ^ (L - ((prec : ℤ) - 1)) := by
      rw [sub_mul, hx, mul_assoc, ← zpow_add₀ (ne_of_gt hb0)]
      norm_num
    rw [hscale, abs_mul, abs_of_pos (zpow_pos hb0 _)]
    have h1 : |((rndHE x : ℤ) : ℚ) - x| ≤ 1 / 2 := rndHE_abs_le x
    have h2 : (b : ℚ) ^ (L - ((prec : ℤ) - 1)) ≤ |q| * (b : ℚ) ^ (1 - (prec : ℤ)) := by
      have : (b : ℚ) ^ (L - ((prec : ℤ) - 1)) = (b : ℚ) ^ L * (b : ℚ) ^ (1 - (prec : ℤ)) := by
        rw [← zpow_add₀ (ne_of_gt hb0)]; ring_nf
      rw [this]
      exact mul_le_mul_of_nonneg_right hlow (le_of_lt (zpow_pos hb0 _))
    calc |((rndHE x : ℤ) : ℚ) - x| * (b : ℚ) ^ (L - ((prec : ℤ) - 1))
        ≤ (1 / 2) * ((b : ℚ) ^ (L - ((prec : ℤ) - 1))) := by
          exact mul_le_mul_of_nonneg_right h1 (le_of_lt (zpow_pos hb0 _))
      _ ≤ (1 / 2) * (|q| * (b : ℚ) ^ (1 - (prec : ℤ))) := by
          exact mul_le_mul_of_nonneg_left h2 (by norm_num)
      _ = |q| * ((b : ℚ) ^ (1 - (prec : ℤ)) / 2) := by ring

/-- A value with an exactly representable coefficient is left unchanged. -/
lemma roundAt_eq_self_strict (b prec : ℕ) (hb : 1 < b) (q : ℚ) (m E : ℤ)
    (hm : |m| < (b : ℤ) ^ prec) (hq : q = (m : ℚ) * (b : ℚ) ^ E) :
    roundAt b prec q = q := by
  by_cases hq0 : q = 0
  · rw [hq0, roundAt_zero]
  · have hbQ : (1 : ℚ) < (b : ℚ) := by exact_mod_cast hb
    have hb0 : (0 : ℚ) < (b : ℚ) := lt_trans one_pos hbQ
    have habs : 0 < |q| := abs_pos.mpr hq0
    set L : ℤ := Int.log b |q| with hL
    have hup : |q| < (b : ℚ) ^ ((prec : ℤ) + E) := by
      rw [hq, abs_mul, abs_of_pos (zpow_pos hb0 _)]
      have h1 : |(m : ℚ)| < (b : ℚ) ^ (prec : ℤ) := by
        rw [← Int.cast_abs]
        have := hm
        rw [show ((b : ℤ) ^ prec) = ((b ^ prec : ℕ) : ℤ) by push_cast; ring] at this
        rw [zpow_natCast]
        exact_mod_cast this
      calc |(m : ℚ)| * (b : ℚ) ^ E < (b : ℚ) ^ (prec : ℤ) * (b : ℚ) ^ E :=
            mul_lt_mul_of_pos_right h1 (zpow_pos hb0 _)
        _ = (b : ℚ) ^ ((prec : ℤ) + E) := by rw [← zpow_add₀ (ne_of_gt hb0)]
    have hLlt : L < (prec : ℤ) + E := by
      have hlow : (b : ℚ) ^ L ≤ |q| := Int.zpow_log_le_self hb habs
      by_contra hc
      push_neg at hc
      exact absurd (le_trans (zpow_le_zpow_right₀ (le_of_lt hbQ) hc) hlow) (not_le.mpr hup)
    have hEe : 0 ≤ E - (L - ((prec : ℤ) - 1)) := by omega
    obtain ⟨d, hd⟩ : ∃ d : ℕ, E - (L - ((prec : ℤ) - 1)) = d := ⟨(E - (L - ((prec : ℤ) - 1))).toNat, by omega⟩
    unfold roundAt
    rw [if_neg hq0]
    have hxval : q * (b : ℚ) ^ (((prec : ℤ) - 1) - L) = ((m * (b : ℤ) ^ d : ℤ) : ℚ) := by
      rw [hq, mul_assoc, ← zpow_add₀ (ne_of_gt hb0)]
      have : E + (((prec : ℤ) - 1) - L) = (d : ℤ) := by omega
      rw [this]
      push_cast
      rw [zpow_natCast]
    rw [hxval, rndHE_intCast]
    push_cast
    rw [mul_assoc, ← zpow_natCast (b : ℚ) d, ← zpow_add₀ (ne_of_gt hb0)]
    rw [show (d : ℤ) + (Int.log b |q| - ((prec : ℤ) - 1)) = E by rw [← hL]; omega]
    exact hq.symm

/-- Exact representability, allowing the top coefficient `b ^ prec` as well. -/
lemma roundAt_eq_self (b prec : ℕ) (hb : 1 < b) (hp : 0 < prec) (q : ℚ) (m E : ℤ)
    (hm : |m| ≤ (b : ℤ) ^ prec) (hq : q = (m : ℚ) * (b : ℚ) ^ E) :
    roundAt b prec q = q := by
  rcases lt_or_eq_of_le hm with h | h
  · exact roundAt_eq_self_strict b prec hb q m E h hq
  · have hb0 : (0 : ℚ) < (b : ℚ) := by exact_mod_cast lt_trans one_pos hb
    have hbZ : (1 : ℤ) < (b : ℤ) := by exact_mod_cast hb
    have hsplit : (b : ℤ) ^ prec = (b : ℤ) ^ (prec - 1) * b := by
      rw [← pow_succ]; congr 1; omega
    have hlt : (b : ℤ) ^ (prec - 1) < (b : ℤ) ^ prec := by
      nlinarith [pow_pos (show (0 : ℤ) < b by omega) (prec - 1)]
    have habs : |(b : ℤ) ^ (prec - 1)| < (b : ℤ) ^ prec := by
      rwa [abs_of_nonneg (by positivity)]
    rcases abs_eq (a := m) (b := (b : ℤ) ^ prec) (by positivity) |>.mp h with hmv | hmv
    · apply roundAt_eq_self_strict b prec hb q ((b : ℤ) ^ (prec - 1)) (E + 1) habs
      rw [hq, hmv]
      push_cast
      rw [← zpow_natCast (b : ℚ) prec, ← zpow_natCast (b : ℚ) (prec - 1)]
      rw [← zpow_add₀ (ne_of_gt hb0), ← zpow_add₀ (ne_of_gt hb0)]
      congr 1
      omega
    · apply roundAt_eq_self_strict b prec hb q (-((b : ℤ) ^ (prec - 1))) (E + 1)
        (by rwa [abs_neg])
      rw [hq, hmv]
      push_cast
      rw [neg_mul, neg_mul, neg_inj]
      rw [← zpow_natCast (b : ℚ) prec, ← zpow_natCast (b : ℚ) (prec - 1)]
      rw [← zpow_add₀ (ne_of_gt hb0), ← zpow_add₀ (ne_of_gt hb0)]
      congr 1
      omega

/-- Rounding is idempotent. -/
lemma roundAt_idem (b prec : ℕ) (hb : 1 < b) (hp : 0 < prec) (q : ℚ) :
    roundAt b prec (roundAt b prec q) = roundAt b prec q := by
  by_cases hq : q = 0
  · rw [hq, roundAt_zero, roundAt_zero]
  · have hbQ : (1 : ℚ) < (b : ℚ) := by exact_mod_cast hb
    have hb0 : (0 : ℚ) < (b : ℚ) := lt_trans one_pos hbQ
    have habs : 0 < |q| := abs_pos.mpr hq
    set L : ℤ := Int.log b |q| with hL
    set x : ℚ := q * (b : ℚ) ^ (((prec : ℤ) - 1) - L) with hx
    have hxbound : |x| < (b : ℚ) ^ (prec : ℤ) := by
      rw [hx, abs_mul, abs_of_pos (zpow_pos hb0 _)]
      have hup : |q| < (b : ℚ) ^ (L + 1) := Int.lt_zpow_succ_log_self hb _
      calc |q| * (b : ℚ) ^ (((prec : ℤ) - 1) - L)
          < (b : ℚ) ^ (L + 1) * (b : ℚ) ^ (((prec : ℤ) - 1) - L) :=
            mul_lt_mul_of_pos_right hup (zpow_pos hb0 _)
        _ = (b : ℚ) ^ (prec : ℤ) := by
            rw [← zpow_add₀ (ne_of_gt hb0)]; congr 1; ring
    have hm : |rndHE x| ≤ (b : ℤ) ^ prec := by
      have h1 : |((rndHE x : ℤ) : ℚ) - x| ≤ 1 / 2 := rndHE_abs_le x
      have h2 : |((rndHE x : ℤ) : ℚ)| ≤ |x| + 1 / 2 := by
        have := abs_add (((rndHE x : ℤ) : ℚ) - x) x
        simp only [sub_add_cancel] at this
        linarith [abs_nonneg x]
      have h3 : ((|rndHE x| : ℤ) : ℚ) < (((b : ℤ) ^ prec : ℤ) : ℚ) + 1 := by
        rw [Int.cast_abs]
        have hc : (((b : ℤ) ^ prec : ℤ) : ℚ) = (b : ℚ) ^ (prec : ℤ) := by
          push_cast; rw [zpow_natCast]
        rw [hc]
        calc |((rndHE x : ℤ) : ℚ)| ≤ |x| + 1 / 2 := h2
          _ < (b : ℚ) ^ (prec : ℤ) + 1 / 2 := by linarith
          _ < (b : ℚ) ^ (prec : ℤ) + 1 := by linarith
      have h4 : |rndHE x| < (b : ℤ) ^ prec + 1 := by exact_mod_cast h3
      omega
    have hval : roundAt b prec q = ((rndHE x : ℤ) : ℚ) * (b : ℚ) ^ (L - ((prec : ℤ) - 1)) := by
      unfold roundAt
      rw [if_neg hq]
    rw [hval]
    exact roundAt_eq_self b prec hb hp _ (rndHE x) (L - ((prec : ℤ) - 1)) hm rfl

/-! Derived facts about `decRound` and `floatRound`. -/

lemma u10_pos : 0 < u10 := by unfold u10; positivity

lemma u10_lt_one : u10 < 1 := by
  unfold u10; norm_num

lemma u2_pos : 0 < u2 := by unfold u2; positivity

lemma u2_lt_one : u2 < 1 := by
  unfold u2; norm_num

lemma decRound_err (q : ℚ) : |decRound q - q| ≤ |q| * u10 := by
  have h := roundAt_err 10 50 (by norm_num) q
  have he : ((10 : ℚ) ^ (1 - ((50 : ℕ) : ℤ)) / 2) = u10 := by
    unfold u10; norm_num
  unfold decRound
  rw [← he]
  exact h

lemma floatRound_err (q : ℚ) : |floatRound q - q| ≤ |q| * u2 := by
  have h := roundAt_err 2 53 (by norm_num) q
  have he : ((2 : ℚ) ^ (1 - ((53 : ℕ) : ℤ)) / 2) = u2 := by
    unfold u2; norm_num
  unfold floatRound
  rw [← he]
  exact h

lemma decRound_le (q : ℚ) (h : 0 ≤ q) : decRound q ≤ q * (1 + u10) := by
  have he := decRound_err q
  rw [abs_of_nonneg h] at he
  have := abs_le.mp he
  linarith [this.2]

lemma decRound_ge (q : ℚ) (h : 0 ≤ q) : q * (1 - u10) ≤ decRound q := by
  have he := decRound_err q
  rw [abs_of_nonneg h] at he
  have := abs_le.mp he
  linarith [this.1]

lemma decRound_nonneg (q : ℚ) (h : 0 ≤ q) : 0 ≤ decRound q := by
  have := decRound_ge q h
  nlinarith [u10_lt_one, u10_pos]

lemma decRound_pos (q : ℚ) (h : 0 < q) : 0 < decRound q := by
  have := decRound_ge q (le_of_lt h)
  nlinarith [u10_lt_one]

lemma floatRound_le (q : ℚ) (h : 0 ≤ q) : floatRound q ≤ q * (1 + u2) := by
  have he := floatRound_err q
  rw [abs_of_nonneg h] at he
  have := abs_le.mp he
  linarith [this.2]

lemma floatRound_ge (q : ℚ) (h : 0 ≤ q) : q * (1 - u2) ≤ floatRound q := by
  have he := floatRound_err q
  rw [abs_of_nonneg h] at he
  have := abs_le.mp he
  linarith [this.1]

/-- Half-even rounding at base `b`: value determined when the scaled
coefficient lies strictly below the halfway point. -/
lemma roundAt_eq_down (b prec : ℕ) (hb : 1 < b) (q : ℚ) (E f : ℤ) (h0 : 0 < q)
    (h1 : (b : ℚ) ^ E ≤ q) (h2 : q < (b : ℚ) ^ (E + 1))
    (h3 : (f : ℚ) ≤ q * (b : ℚ) ^ (((prec : ℤ) - 1) - E))
    (h4 : q * (b : ℚ) ^ (((prec : ℤ) - 1) - E) < (f : ℚ) + 1 / 2) :
    roundAt b prec q = (f : ℚ) * (b : ℚ) ^ (E - ((prec : ℤ) - 1)) := by
  have hlog : Int.log b |q| = E := by
    rw [abs_of_pos h0]; exact log_eq_of b hb q E h0 h1 h2
  unfold roundAt
  rw [if_neg (ne_of_gt h0), hlog]
  have hfl : ⌊q * (b : ℚ) ^ (((prec : ℤ) - 1) - E)⌋ = f :=
    Int.floor_eq_iff.mpr ⟨h3, by linarith⟩
  unfold rndHE
  rw [hfl]
  rw [if_pos (by linarith)]

/-- Half-even rounding at base `b`: value determined when the scaled
coefficient lies strictly above the halfway point. -/
lemma roundAt_eq_up (b prec : ℕ) (hb : 1 < b) (q : ℚ) (E f : ℤ) (h0 : 0 < q)
    (h1 : (b : ℚ) ^ E ≤ q) (h2 : q < (b : ℚ) ^ (E + 1))
    (h3 : (f : ℚ) + 1 / 2 < q * (b : ℚ) ^ (((prec : ℤ) - 1) - E))
    (h4 : q * (b : ℚ) ^ (((prec : ℤ) - 1) - E) ≤ (f : ℚ) + 1) :
    roundAt b prec q = ((f + 1 : ℤ) : ℚ) * (b : ℚ) ^ (E - ((prec : ℤ) - 1)) := by
  have hlog : Int.log b |q| = E := by
    rw [abs_of_pos h0]; exact log_eq_of b hb q E h0 h1 h2
  unfold roundAt
  rw [if_neg (ne_of_gt h0), hlog]
  rcases eq_or_lt_of_le h4 with heq | hlt
  · rw [show q * (b : ℚ) ^ (((prec : ℤ) - 1) - E) = ((f + 1 : ℤ) : ℚ) by push_cast; linarith]
    rw [rndHE_intCast]
  · have hfl : ⌊q * (b : ℚ) ^ (((prec : ℤ) - 1) - E)⌋ = f :=
      Int.floor_eq_iff.mpr ⟨by linarith, by linarith⟩
    unfold rndHE
    rw [hfl]
    rw [if_neg (by linarith)]
    rw [if_pos (by linarith)]

/-- Half-even rounding at base `b`: a tie with an even coefficient rounds
down. -/
lemma roundAt_eq_tie_even (b prec : ℕ) (hb : 1 < b) (q : ℚ) (E f : ℤ) (h0 : 0 < q)
    (h1 : (b : ℚ) ^ E ≤ q) (h2 : q < (b : ℚ) ^ (E + 1))
    (h3 : q * (b : ℚ) ^ (((prec : ℤ) - 1) - E) = (f : ℚ) + 1 / 2)
    (hpar : f % 2 = 0) :
    roundAt b prec q = (f : ℚ) * (b : ℚ) ^ (E - ((prec : ℤ) - 1)) := by
  have hlog : Int.log b |q| = E := by
    rw [abs_of_pos h0]; exact log_eq_of b hb q E h0 h1 h2
  unfold roundAt
  rw [if_neg (ne_of_gt h0), hlog]
  have hfl : ⌊q * (b : ℚ) ^ (((prec : ℤ) - 1) - E)⌋ = f :=
    Int.floor_eq_iff.mpr ⟨by rw [h3]; linarith, by rw [h3]; norm_num⟩
  unfold rndHE
  rw [hfl, h3]
  rw [if_neg (by norm_num), if_neg (by norm_num), if_pos hpar]

/-- Half-even rounding at base `b`: a tie with an odd coefficient rounds up. -/
lemma roundAt_eq_tie_odd (b prec : ℕ) (hb : 1 < b) (q : ℚ) (E f : ℤ) (h0 : 0 < q)
    (h1 : (b : ℚ) ^ E ≤ q) (h2 : q < (b : ℚ) ^ (E + 1))
    (h3 : q * (b : ℚ) ^ (((prec : ℤ) - 1) - E) = (f : ℚ) + 1 / 2)
    (hpar : f % 2 = 1) :
    roundAt b prec q = ((f + 1 : ℤ) : ℚ) * (b : ℚ) ^ (E - ((prec : ℤ) - 1)) := by
  have hlog : Int.log b |q| = E := by
    rw [abs_of_pos h0]; exact log_eq_of b hb q E h0 h1 h2
  unfold roundAt
  rw [if_neg (ne_of_gt h0), hlog]
  have hfl : ⌊q * (b : ℚ) ^ (((prec : ℤ) - 1) - E)⌋ = f :=
    Int.floor_eq_iff.mpr ⟨by rw [h3]; linarith, by rw [h3]; norm_num⟩
  unfold rndHE
  rw [hfl, h3]
  rw [if_neg (by norm_num), if_neg (by norm_num), if_neg (by omega)]

/-- Tie specialization to the decimal context, even coefficient. -/
lemma decRound_eq_tie_even (q : ℚ) (E f : ℤ) (h0 : 0 < q)
    (h1 : (10 : ℚ) ^ E ≤ q) (h2 : q < (10 : ℚ) ^ (E + 1))
    (h3 : q * (10 : ℚ) ^ (49 - E) = (f : ℚ) + 1 / 2) (hpar : f % 2 = 0) :
    decRound q = (f : ℚ) * (10 : ℚ) ^ (E - 49) := by
  have h := roundAt_eq_tie_even 10 50 (by norm_num) q E f h0 h1 h2
  rw [show ((((50 : ℕ) : ℤ) - 1) - E) = 49 - E by norm_num] at h
  rw [show (E - (((50 : ℕ) : ℤ) - 1)) = E - 49 by norm_num] at h
  exact h h3 hpar

/-- Tie specialization to the decimal context, odd coefficient. -/
lemma decRound_eq_tie_odd (q : ℚ) (E f : ℤ) (h0 : 0 < q)
    (h1 : (10 : ℚ) ^ E ≤ q) (h2 : q < (10 : ℚ) ^ (E + 1))
    (h3 : q * (10 : ℚ) ^ (49 - E) = (f : ℚ) + 1 / 2) (hpar : f % 2 = 1) :
    decRound q = ((f + 1 : ℤ) : ℚ) * (10 : ℚ) ^ (E - 49) := by
  have h := roundAt_eq_tie_odd 10 50 (by norm_num) q E f h0 h1 h2
  rw [show ((((50 : ℕ) : ℤ) - 1) - E) = 49 - E by norm_num] at h
  rw [show (E - (((50 : ℕ) : ℤ) - 1)) = E - 49 by norm_num] at h
  exact h h3 hpar

/-- Specialization of `roundAt_eq_down` to the 50-digit decimal context. -/
lemma decRound_eq_down (q : ℚ) (E f : ℤ) (h0 : 0 < q)
    (h1 : (10 : ℚ) ^ E ≤ q) (h2 : q < (10 : ℚ) ^ (E + 1))
    (h3 : (f : ℚ) ≤ q * (10 : ℚ) ^ (49 - E))
    (h4 : q * (10 : ℚ) ^ (49 - E) < (f : ℚ) + 1 / 2) :
    decRound q = (f : ℚ) * (10 : ℚ) ^ (E - 49) := by
  have h := roundAt_eq_down 10 50 (by norm_num) q E f h0 h1 h2
  rw [show ((((50 : ℕ) : ℤ) - 1) - E) = 49 - E by norm_num] at h
  rw [show (E - (((50 : ℕ) : ℤ) - 1)) = E - 49 by norm_num] at h
  exact h h3 h4

/-- Specialization of `roundAt_eq_up` to the 50-digit decimal context. -/
lemma decRound_eq_up (q : ℚ) (E f : ℤ) (h0 : 0 < q)
    (h1 : (10 : ℚ) ^ E ≤ q) (h2 : q < (10 : ℚ) ^ (E + 1))
    (h3 : (f : ℚ) + 1 / 2 < q * (10 : ℚ) ^ (49 - E))
    (h4 : q * (10 : ℚ) ^ (49 - E) ≤ (f : ℚ) + 1) :
    decRound q = ((f + 1 : ℤ) : ℚ) * (10 : ℚ) ^ (E - 49) := by
  have h := roundAt_eq_up 10 50 (by norm_num) q E f h0 h1 h2
  rw [show ((((50 : ℕ) : ℤ) - 1) - E) = 49 - E by norm_num] at h
  rw [show (E - (((50 : ℕ) : ℤ) - 1)) = E - 49 by norm_num] at h
  exact h h3 h4

/-- Specialization of `roundAt_eq_down` to binary64 conversion. -/
lemma floatRound_eq_down (q : ℚ) (E f : ℤ) (h0 : 0 < q)
    (h1 : (2 : ℚ) ^ E ≤ q) (h2 : q < (2 : ℚ) ^ (E + 1))
    (h3 : (f : ℚ) ≤ q * (2 : ℚ) ^ (52 - E))
    (h4 : q * (2 : ℚ) ^ (52 - E) < (f : ℚ) + 1 / 2) :
    floatRound q = (f : ℚ) * (2 : ℚ) ^ (E - 52) := by
  have h := roundAt_eq_down 2 53 (by norm_num) q E f h0 h1 h2
  rw [show ((((53 : ℕ) : ℤ) - 1) - E) = 52 - E by norm_num] at h
  rw [show (E - (((53 : ℕ) : ℤ) - 1)) = E - 52 by norm_num] at h
  exact h h3 h4

/-- Specialization of `roundAt_eq_up` to binary64 conversion. -/
lemma floatRound_eq_up (q : ℚ) (E f : ℤ) (h0 : 0 < q)
    (h1 : (2 : ℚ) ^ E ≤ q) (h2 : q < (2 : ℚ) ^ (E + 1))
    (h3 : (f : ℚ) + 1 / 2 < q * (2 : ℚ) ^ (52 - E))
    (h4 : q * (2 : ℚ) ^ (52 - E) ≤ (f : ℚ) + 1) :
    floatRound q = ((f + 1 : ℤ) : ℚ) * (2 : ℚ) ^ (E - 52) := by
  have h := roundAt_eq_up 2 53 (by norm_num) q E f h0 h1 h2
  rw [show ((((53 : ℕ) : ℤ) - 1) - E) = 52 - E by norm_num] at h
  rw [show (E - (((53 : ℕ) : ℤ) - 1)) = E - 52 by norm_num] at h
  exact h h3 h4

/-- Exact representability specialized to the decimal context. -/
lemma decRound_eq_self (q : ℚ) (m E : ℤ) (hm : |m| ≤ 10 ^ 50)
    (hq : q = (m : ℚ) * (10 : ℚ) ^ E) : decRound q = q :=
  roundAt_eq_self 10 50 (by norm_num) (by norm_num) q m E (by exact_mod_cast hm) hq

/-- Idempotence specialized to the decimal context. -/
lemma decRound_idem (q : ℚ) : decRound (decRound q) = decRound q :=
  roundAt_idem 10 50 (by norm_num) (by norm_num) q

lemma decRound_zero : decRound 0 = 0 := roundAt_zero 10 50

lemma decRound_one : decRound 1 = 1 :=
  decRound_eq_self 1 1 0 (by norm_num) (by norm_num)

/-! Unfolding `binomial_probability` on its non-raising path. -/

lemma binomial_probability_ok (n k : ℤ) (hn : 0 ≤ n) (hk : 0 ≤ k) (p : ℚ)
    (hp0 : p ≠ 0) (hp1 : p ≠ 1) :
    binomial_probability n k p =
      .ok (dMul (dMul (Nat.choose n.toNat k.toNat : ℚ) (dPow p k))
        (dPow (dSub 1 p) (n - k))) := by
  unfold binomial_probability
  rw [if_neg (by omega), if_neg (by tauto), if_neg (by tauto)]

lemma binomial_probability_nat (n k : ℕ) (p : ℚ) (hp0 : p ≠ 0) (hp1 : p ≠ 1) :
    binomial_probability n k p = .ok (bprob n k p) := by
  have h := binomial_probability_ok n k (by positivity) (by positivity) p hp0 hp1
  rw [h]
  unfold bprob
  norm_num

/-- Stepwise evaluation scheme for `bprob` on concrete inputs. -/
lemma bprob_eval (n k : ℕ) (p q1 ps pf a b : ℚ) (c : ℕ)
    (hc : Nat.choose n k = c)
    (hq1 : dSub 1 p = q1)
    (hps : dPow p (k : ℤ) = ps)
    (hpf : dPow q1 ((n : ℤ) - (k : ℤ)) = pf)
    (ha : dMul ((c : ℕ) : ℚ) ps = a)
    (hb : dMul a pf = b) :
    bprob n k p = b := by
  unfold bprob
  rw [hq1, hps, hpf, hc, ha, hb]

/-! Relative error propagation: `relB j x t` states that `x` approximates the
exact value `t` to within `j` accumulated half-ulp rounding factors. -/

lemma relB_refl (x : ℚ) : relB 0 x x := by
  unfold relB; norm_num

lemma relB_nonneg (j : ℕ) (x t : ℚ) (h : relB j x t) (ht : 0 ≤ t) : 0 ≤ x := by
  have h1 : (0 : ℚ) ≤ 1 - u10 := by linarith [u10_lt_one]
  have := h.1
  nlinarith [pow_nonneg h1 j]

lemma relB_decRound (j : ℕ) (x t : ℚ) (h : relB j x t) (ht : 0 ≤ t) :
    relB (j + 1) (decRound x) t := by
  have h1 : (0 : ℚ) ≤ 1 - u10 := by linarith [u10_lt_one]
  have h2 : (0 : ℚ) ≤ 1 + u10 := by linarith [u10_pos]
  have hx : 0 ≤ x := relB_nonneg j x t h ht
  constructor
  · calc t * (1 - u10) ^ (j + 1) = t * (1 - u10) ^ j * (1 - u10) := by ring
      _ ≤ x * (1 - u10) := mul_le_mul_of_nonneg_right h.1 h1
      _ ≤ decRound x := decRound_ge x hx
  · calc decRound x ≤ x * (1 + u10) := decRound_le x hx
      _ ≤ t * (1 + u10) ^ j * (1 + u10) := mul_le_mul_of_nonneg_right h.2 h2
      _ = t * (1 + u10) ^ (j + 1) := by ring

lemma relB_mul (i j : ℕ) (x s y t : ℚ) (hx : relB i x s) (hy : relB j y t)
    (hs : 0 ≤ s) (ht : 0 ≤ t) : relB (i + j) (x * y) (s * t) := by
  have h1 : (0 : ℚ) ≤ 1 - u10 := by linarith [u10_lt_one]
  have h2 : (0 : ℚ) ≤ 1 + u10 := by linarith [u10_pos]
  have hx0 : 0 ≤ x := relB_nonneg i x s hx hs
  have hy0 : 0 ≤ y := relB_nonneg j y t hy ht
  constructor
  · have e1 : s * t * (1 - u10) ^ (i + j) = (s * (1 - u10) ^ i) * (t * (1 - u10) ^ j) := by
      rw [pow_add]; ring
    rw [e1]
    exact mul_le_mul hx.1 hy.1 (mul_nonneg ht (pow_nonneg h1 j)) hx0
  · have e2 : s * t * (1 + u10) ^ (i + j) = (s * (1 + u10) ^ i) * (t * (1 + u10) ^ j) := by
      rw [pow_add]; ring
    rw [e2]
    exact mul_le_mul hx.2 hy.2 hy0 (mul_nonneg hs (pow_nonneg h2 i))

lemma relB_pow (j : ℕ) (x t : ℚ) (h : relB j x t) (ht : 0 ≤ t) (m : ℕ) :
    relB (j * m) (x ^ m) (t ^ m) := by
  induction m with
  | zero => simpa using relB_refl 1
  | succ i ih =>
    have := relB_mul (j * i) j (x ^ i) (t ^ i) x t ih h (pow_nonneg ht i) ht
    rw [show j * i + j = j * (i + 1) by ring] at this
    rw [pow_succ, pow_succ]
    exact this

lemma relB_mono (i j : ℕ) (x t : ℚ) (h : relB i x t) (ht : 0 ≤ t) (hij : i ≤ j) :
    relB j x t := by
  have h1 : (0 : ℚ) ≤ 1 - u10 := by linarith [u10_lt_one]
  have h1b : (1 : ℚ) - u10 ≤ 1 := by linarith [u10_pos]
  have h2 : (1 : ℚ) ≤ 1 + u10 := by linarith [u10_pos]
  constructor
  · calc t * (1 - u10) ^ j ≤ t * (1 - u10) ^ i :=
        mul_le_mul_of_nonneg_left (pow_le_pow_of_le_one h1 h1b hij) ht
      _ ≤ x := h.1
  · calc x ≤ t * (1 + u10) ^ i := h.2
      _ ≤ t * (1 + u10) ^ j :=
        mul_le_mul_of_nonneg_left (pow_le_pow_right₀ h2 hij) ht

/-- The value computed by `binomial_probability` carries at most `n + 4`
half-ulp rounding factors relative to the exact binomial term. -/
lemma bprob_relB (n k : ℕ) (hk : k ≤ n) (p : ℚ) (h0 : 0 < p) (h1 : p < 1) :
    relB (n + 4) (bprob n k p) (exactTerm n k p) := by
  have hpk : (0 : ℚ) ≤ p ^ k := pow_nonneg h0.le k
  have hq0 : (0 : ℚ) ≤ 1 - p := by linarith
  have hqk : (0 : ℚ) ≤ (1 - p) ^ (n - k) := pow_nonneg hq0 _
  have hC : (0 : ℚ) ≤ (Nat.choose n k : ℚ) := by positivity
  have hps : relB 1 (dPow p k) (p ^ k) := by
    unfold dPow
    rw [zpow_natCast]
    exact relB_decRound 0 _ _ (relB_refl _) hpk
  have hsub : relB 1 (dSub 1 p) (1 - p) := by
    unfold dSub
    exact relB_decRound 0 _ _ (relB_refl _) hq0
  have hpf : relB (n - k + 1) (dPow (dSub 1 p) ((n : ℤ) - k)) ((1 - p) ^ (n - k)) := by
    unfold dPow
    rw [show ((n : ℤ) - k) = ((n - k : ℕ) : ℤ) by omega, zpow_natCast]
    have hp2 := relB_pow 1 _ _ hsub hq0 (n - k)
    rw [one_mul] at hp2
    exact relB_decRound _ _ _ hp2 hqk
  have hA : relB 2 (dMul (Nat.choose n k : ℚ) (dPow p k)) ((Nat.choose n k : ℚ) * p ^ k) := by
    unfold dMul
    have := relB_mul 0 1 _ _ _ _ (relB_refl (Nat.choose n k : ℚ)) hps hC hpk
    rw [zero_add] at this
    exact relB_decRound 1 _ _ this (mul_nonneg hC hpk)
  have hB := relB_mul 2 (n - k + 1) _ _ _ _ hA hpf (mul_nonneg hC hpk) hqk
  have hfin := relB_decRound (2 + (n - k + 1)) _ _ hB
    (mul_nonneg (mul_nonneg hC hpk) hqk)
  unfold bprob exactTerm
  exact relB_mono _ _ _ _ hfin (mul_nonneg (mul_nonneg hC hpk) hqk) (by omega)

/-- The exact binomial terms sum to one. -/
lemma sum_exactTerm (n : ℕ) (p : ℚ) :
    ∑ k ∈ Finset.range (n + 1), exactTerm n k p = 1 := by
  calc ∑ k ∈ Finset.range (n + 1), exactTerm n k p
      = ∑ k ∈ Finset.range (n + 1), p ^ k * (1 - p) ^ (n - k) * (Nat.choose n k : ℚ) :=
        Finset.sum_congr rfl (fun k _ => by unfold exactTerm; ring)
    _ = (p + (1 - p)) ^ n := (add_pow p (1 - p) n).symm
    _ = 1 := by rw [show p + (1 - p) = (1 : ℚ) by ring, one_pow]

/-- Bounds on the sum of the computed probabilities. -/
lemma sum_bprob_bounds (n : ℕ) (p : ℚ) (h0 : 0 < p) (h1 : p < 1) :
    (1 - u10) ^ (n + 4) ≤ ∑ k ∈ Finset.range (n + 1), bprob n k p ∧
    ∑ k ∈ Finset.range (n + 1), bprob n k p ≤ (1 + u10) ^ (n + 4) := by
  have hterm : ∀ k ∈ Finset.range (n + 1), 0 ≤ exactTerm n k p := by
    intro k _
    unfold exactTerm
    have : (0 : ℚ) ≤ 1 - p := by linarith
    positivity
  constructor
  · calc (1 - u10) ^ (n + 4)
        = ∑ k ∈ Finset.range (n + 1), exactTerm n k p * (1 - u10) ^ (n + 4) := by
          rw [← Finset.sum_mul, sum_exactTerm, one_mul]
      _ ≤ ∑ k ∈ Finset.range (n + 1), bprob n k p := by
          apply Finset.sum_le_sum
          intro k hk
          exact (bprob_relB n k (by simp at hk; omega) p h0 h1).1
  · calc ∑ k ∈ Finset.range (n + 1), bprob n k p
        ≤ ∑ k ∈ Finset.range (n + 1), exactTerm n k p * (1 + u10) ^ (n + 4) := by
          apply Finset.sum_le_sum
          intro k hk
          exact (bprob_relB n k (by simp at hk; omega) p h0 h1).2
      _ = (1 + u10) ^ (n + 4) := by
          rw [← Finset.sum_mul, sum_exactTerm, one_mul]

/-! Numeric bounds on the accumulated rounding factors. -/

lemma pow_one_add_le (u : ℚ) (hu : 0 ≤ u) :
    ∀ m : ℕ, 2 * (m : ℚ) * u ≤ 1 → (1 + u) ^ m ≤ 1 + 2 * m * u := by
  intro m
  induction m with
  | zero => intro _; norm_num
  | succ i ih =>
    intro hm
    have hi : 2 * (i : ℚ) * u ≤ 1 := by
      push_cast at hm ⊢
      nlinarith
    have h := ih hi
    have hiu : 2 * (i : ℚ) * u * u ≤ u := by nlinarith
    calc (1 + u) ^ (i + 1) = (1 + u) ^ i * (1 + u) := pow_succ _ _
      _ ≤ (1 + 2 * i * u) * (1 + u) := by
          apply mul_le_mul_of_nonneg_right h (by linarith)
      _ ≤ 1 + 2 * ((i : ℚ) + 1) * u := by nlinarith
      _ = 1 + 2 * (((i : ℕ) + 1 : ℕ) : ℚ) * u := by norm_num

lemma one_sub_mul_le_pow (u : ℚ) (hu1 : u ≤ 1) (m : ℕ) :
    1 - (m : ℚ) * u ≤ (1 - u) ^ m := by
  have h := one_add_mul_le_pow (a := -u) (by linarith) m
  calc 1 - (m : ℚ) * u = 1 + (m : ℚ) * (-u) := by ring
    _ ≤ (1 + -u) ^ m := h
    _ = (1 - u) ^ m := by ring_nf

/-- A value inside the accumulated rounding corridor around 1 is close to 1. -/
lemma close_one (u : ℚ) (hu0 : 0 ≤ u) (hu1 : u ≤ 1) (m : ℕ) (hm : 2 * (m : ℚ) * u ≤ 1)
    (x : ℚ) (hl : (1 - u) ^ m ≤ x) (hr : x ≤ (1 + u) ^ m) :
    |x - 1| ≤ 2 * m * u := by
  rw [abs_le]
  constructor
  · have h1 := one_sub_mul_le_pow u hu1 m
    have : (m : ℚ) * u ≤ 2 * m * u := by nlinarith [Nat.cast_nonneg (α := ℚ) m]
    linarith
  · have h2 := pow_one_add_le u hu0 m hm
    linarith

/-! Facts about the bias constant. -/

lemma LP_pos : 0 < LEFT_PROBABILITY := by unfold LEFT_PROBABILITY; norm_num

lemma LP_lt_one : LEFT_PROBABILITY < 1 := by unfold LEFT_PROBABILITY; norm_num

lemma LP_ne_zero : LEFT_PROBABILITY ≠ 0 := ne_of_gt LP_pos

lemma LP_ne_one : LEFT_PROBABILITY ≠ 1 := ne_of_lt LP_lt_one

/-! The accumulation loop as a pair of pure folds. -/

lemma rtpGo_eq (rows : ℕ) (ms : List ℚ) (l : List ℕ) (rt tp : ℚ) :
    rtpGo (rows : ℤ) ms l rt tp =
      .ok (l.foldl (fun a i => dAdd a (dMul (bprob rows i LEFT_PROBABILITY) (ms.getD i 0))) rt,
           l.foldl (fun a i => dAdd a (bprob rows i LEFT_PROBABILITY)) tp) := by
  induction l generalizing rt tp with
  | nil => rfl
  | cons i rest ih =>
    unfold rtpGo
    rw [binomial_probability_nat rows i LEFT_PROBABILITY LP_ne_zero LP_ne_one]
    simp only [List.foldl_cons]
    exact ih _ _

/-- Lower bound for a fold of rounded additions of nonnegative values. -/
lemma foldl_dAdd_ge (f : ℕ → ℚ) (l : List ℕ) (hf : ∀ i ∈ l, 0 ≤ f i) (a : ℚ) (ha : 0 ≤ a) :
    (a + (l.map f).sum) * (1 - u10) ^ l.length ≤
      l.foldl (fun s i => dAdd s (f i)) a := by
  induction l generalizing a with
  | nil => simp
  | cons i rest ih =>
    have hfi : 0 ≤ f i := hf i (List.mem_cons_self i rest)
    have hrest : ∀ j ∈ rest, 0 ≤ f j := fun j hj => hf j (List.mem_cons_of_mem i hj)
    have hsum : 0 ≤ (rest.map f).sum :=
      List.sum_nonneg (by intro x hx; obtain ⟨j, hj, rfl⟩ := List.mem_map.mp hx; exact hrest j hj)
    have hu : (0 : ℚ) ≤ 1 - u10 := by linarith [u10_lt_one]
    have ha' : 0 ≤ dAdd a (f i) := by
      unfold dAdd; exact decRound_nonneg _ (by linarith)
    have hstep : (a + f i) * (1 - u10) ≤ dAdd a (f i) := by
      unfold dAdd; exact decRound_ge _ (by linarith)
    simp only [List.foldl_cons, List.map_cons, List.sum_cons, List.length_cons]
    have hIH := ih hrest (dAdd a (f i)) ha'
    have hkey : (a + (f i + (rest.map f).sum)) * (1 - u10) ^ (rest.length + 1) ≤
        (dAdd a (f i) + (rest.map f).sum) * (1 - u10) ^ rest.length := by
      have e1 : (a + (f i + (rest.map f).sum)) * (1 - u10) ^ (rest.length + 1) =
          ((a + f i) * (1 - u10) + (rest.map f).sum * (1 - u10)) * (1 - u10) ^ rest.length := by
        ring
      rw [e1]
      apply mul_le_mul_of_nonneg_right _ (pow_nonneg hu _)
      have h2 : (rest.map f).sum * (1 - u10) ≤ (rest.map f).sum := by
        nlinarith [u10_pos]
      linarith
    exact le_trans hkey hIH

/-- Upper bound for a fold of rounded additions of nonnegative values. -/
lemma foldl_dAdd_le (f : ℕ → ℚ) (l : List ℕ) (hf : ∀ i ∈ l, 0 ≤ f i) (a : ℚ) (ha : 0 ≤ a) :
    l.foldl (fun s i => dAdd s (f i)) a ≤
      (a + (l.map f).sum) * (1 + u10) ^ l.length := by
  induction l generalizing a with
  | nil => simp
  | cons i rest ih =>
    have hfi : 0 ≤ f i := hf i (List.mem_cons_self i rest)
    have hrest : ∀ j ∈ rest, 0 ≤ f j := fun j hj => hf j (List.mem_cons_of_mem i hj)
    have hsum : 0 ≤ (rest.map f).sum :=
      List.sum_nonneg (by intro x hx; obtain ⟨j, hj, rfl⟩ := List.mem_map.mp hx; exact hrest j hj)
    have hu : (0 : ℚ) ≤ 1 + u10 := by linarith [u10_pos]
    have ha' : 0 ≤ dAdd a (f i) := by
      unfold dAdd; exact decRound_nonneg _ (by linarith)
    have hstep : dAdd a (f i) ≤ (a + f i) * (1 + u10) := by
      unfold dAdd; exact decRound_le _ (by linarith)
    simp only [List.foldl_cons, List.map_cons, List.sum_cons, List.length_cons]
    have hIH := ih hrest (dAdd a (f i)) ha'
    have hkey : (dAdd a (f i) + (rest.map f).sum) * (1 + u10) ^ rest.length ≤
        (a + (f i + (rest.map f).sum)) * (1 + u10) ^ (rest.length + 1) := by
      have e1 : (a + (f i + (rest.map f).sum)) * (1 + u10) ^ (rest.length + 1) =
          ((a + f i) * (1 + u10) + (rest.map f).sum * (1 + u10)) * (1 + u10) ^ rest.length := by
        ring
      rw [e1]
      apply mul_le_mul_of_nonneg_right _ (pow_nonneg hu _)
      have h2 : (rest.map f).sum ≤ (rest.map f).sum * (1 + u10) := by
        nlinarith [u10_pos]
      linarith
    exact le_trans hIH hkey

/-- Sums over `List.range` agree with `Finset.range` sums. -/
lemma sum_list_range (f : ℕ → ℚ) (m : ℕ) :
    ((List.range m).map f).sum = ∑ i ∈ Finset.range m, f i := by
  induction m with
  | zero => simp
  | succ i ih =>
    rw [List.range_succ, List.map_append, List.sum_append, Finset.sum_range_succ, ih]
    simp

/-- One step of the `total_prob` accumulation. -/
lemma tpFold_succ (rows count : ℕ) :
    tpFold rows (count + 1) =
      dAdd (tpFold rows count) (bprob rows count LEFT_PROBABILITY) := by
  unfold tpFold
  rw [List.range_succ, List.foldl_append]
  rfl

/-- One step of the `total_rtp` accumulation. -/
lemma rtpFold_succ (rows count : ℕ) (ms : List ℚ) :
    rtpFold rows (count + 1) ms =
      dAdd (rtpFold rows count ms)
        (dMul (bprob rows count LEFT_PROBABILITY) (ms.getD count 0)) := by
  unfold rtpFold
  rw [List.range_succ, List.foldl_append]
  rfl

/-- Closed form of `calculate_rtp` for a row count present in the table. -/
lemma calculate_rtp_eval (rows : ℕ) (ms : List ℚ)
    (hlook : MULTIPLIER_TABLES.lookup (rows : ℤ) = some ms) :
    calculate_rtp (rows : ℤ) =
      .ok { total_rtp := rtpFold rows ms.length ms
            total_prob := tpFold rows ms.length
            warned := decide (floatRound (1 / 10000) <
                        |floatRound (floatRound (tpFold rows ms.length) - 1)|)
            returned := floatRound (rtpFold rows ms.length ms) } := by
  unfold calculate_rtp
  simp only [hlook, rtpGo_eq]
  unfold rtpFold tpFold
  rfl

lemma bprob_nonneg (rows k : ℕ) (hk : k ≤ rows) : 0 ≤ bprob rows k LEFT_PROBABILITY := by
  apply relB_nonneg _ _ _ (bprob_relB rows k hk LEFT_PROBABILITY LP_pos LP_lt_one)
  unfold exactTerm
  have h1 : (0 : ℚ) ≤ LEFT_PROBABILITY := LP_pos.le
  have h2 : (0 : ℚ) ≤ 1 - LEFT_PROBABILITY := by linarith [LP_lt_one]
  positivity

/-- Corridor bounds on the accumulated total probability. -/
lemma tpFold_bounds (rows : ℕ) :
    (1 - u10) ^ (2 * rows + 5) ≤ tpFold rows (rows + 1) ∧
    tpFold rows (rows + 1) ≤ (1 + u10) ^ (2 * rows + 5) := by
  have h1 : (0 : ℚ) ≤ 1 - u10 := by linarith [u10_lt_one]
  have h2 : (0 : ℚ) ≤ 1 + u10 := by linarith [u10_pos]
  have hf : ∀ i ∈ List.range (rows + 1), 0 ≤ bprob rows i LEFT_PROBABILITY := by
    intro i hi
    exact bprob_nonneg rows i (by simp at hi; omega)
  have hge := foldl_dAdd_ge (fun i => bprob rows i LEFT_PROBABILITY)
    (List.range (rows + 1)) hf 0 le_rfl
  have hle := foldl_dAdd_le (fun i => bprob rows i LEFT_PROBABILITY)
    (List.range (rows + 1)) hf 0 le_rfl
  rw [zero_add, sum_list_range, List.length_range] at hge hle
  have hs := sum_bprob_bounds rows LEFT_PROBABILITY LP_pos LP_lt_one
  constructor
  · calc (1 - u10) ^ (2 * rows + 5)
        = (1 - u10) ^ (rows + 4) * (1 - u10) ^ (rows + 1) := by
          rw [← pow_add]; congr 1; ring
      _ ≤ (∑ k ∈ Finset.range (rows + 1), bprob rows k LEFT_PROBABILITY) *
            (1 - u10) ^ (rows + 1) :=
          mul_le_mul_of_nonneg_right hs.1 (pow_nonneg h1 _)
      _ ≤ tpFold rows (rows + 1) := hge
  · calc tpFold rows (rows + 1)
        ≤ (∑ k ∈ Finset.range (rows + 1), bprob rows k LEFT_PROBABILITY) *
            (1 + u10) ^ (rows + 1) := hle
      _ ≤ (1 + u10) ^ (rows + 4) * (1 + u10) ^ (rows + 1) :=
          mul_le_mul_of_nonneg_right hs.2 (pow_nonneg h2 _)
      _ = (1 + u10) ^ (2 * rows + 5) := by
          rw [← pow_add]; congr 1; ring

/-- For row counts the script supports, the accumulated probability mass is
within `10 ^ (-9)` of one. -/
lemma tpFold_close (rows : ℕ) (hrows : rows ≤ 20) :
    |tpFold rows (rows + 1) - 1| ≤ 1 / 1000000000 := by
  have hb := tpFold_bounds rows
  have hcast : ((2 * rows + 5 : ℕ) : ℚ) ≤ 45 := by
    have h45 : (2 * rows + 5 : ℕ) ≤ 45 := by omega
    exact_mod_cast h45
  have hmu : 2 * ((2 * rows + 5 : ℕ) : ℚ) * u10 ≤ 1 := by
    have : 2 * ((2 * rows + 5 : ℕ) : ℚ) * u10 ≤ 2 * 45 * u10 := by
      nlinarith [u10_pos]
    have h90 : 2 * (45 : ℚ) * u10 ≤ 1 := by unfold u10; norm_num
    linarith
  have hc := close_one u10 u10_pos.le u10_lt_one.le (2 * rows + 5) hmu _ hb.1 hb.2
  have h90 : 2 * ((2 * rows + 5 : ℕ) : ℚ) * u10 ≤ 90 * u10 := by nlinarith [u10_pos]
  have hfin : (90 : ℚ) * u10 ≤ 1 / 1000000000 := by unfold u10; norm_num
  linarith

/-- With the probability mass this close to one, the `float`-based warning
test of line 89 does not fire. -/
lemma warned_false (tp : ℚ) (h : |tp - 1| ≤ 1 / 100000000) :
    decide (floatRound (1 / 10000) < |floatRound (floatRound tp - 1)|) = false := by
  apply decide_eq_false
  rw [not_lt]
  have hu2 : u2 ≤ 1 / 1000000000000000 := by unfold u2; norm_num
  have hu2p := u2_pos
  have htp2 : |tp| ≤ 2 := by
    rw [abs_le] at h ⊢
    constructor <;> linarith
  have h1 := floatRound_err tp
  have habs0 : (0 : ℚ) ≤ |tp - 1| := abs_nonneg _
  have ha : |floatRound tp - 1| ≤ |tp - 1| + 2 * u2 := by
    calc |floatRound tp - 1| = |(floatRound tp - tp) + (tp - 1)| := by congr 1; ring
      _ ≤ |floatRound tp - tp| + |tp - 1| := abs_add _ _
      _ ≤ |tp| * u2 + |tp - 1| := by linarith
      _ ≤ 2 * u2 + |tp - 1| := by nlinarith
      _ = |tp - 1| + 2 * u2 := by ring
  have h2 := floatRound_err (floatRound tp - 1)
  have habs1 : (0 : ℚ) ≤ |floatRound tp - 1| := abs_nonneg _
  have hb : |floatRound (floatRound tp - 1)| ≤ |floatRound tp - 1| * (1 + u2) := by
    calc |floatRound (floatRound tp - 1)|
        = |(floatRound (floatRound tp - 1) - (floatRound tp - 1)) + (floatRound tp - 1)| := by
          congr 1; ring
      _ ≤ |floatRound (floatRound tp - 1) - (floatRound tp - 1)| + |floatRound tp - 1| :=
          abs_add _ _
      _ ≤ |floatRound tp - 1| * u2 + |floatRound tp - 1| := by linarith
      _ = |floatRound tp - 1| * (1 + u2) := by ring
  have hrhs : (1 / 10000 : ℚ) * (1 - u2) ≤ floatRound (1 / 10000) :=
    floatRound_ge _ (by norm_num)
  have key : (1 / 100000000 + 2 * u2) * (1 + u2) ≤ (1 / 10000 : ℚ) * (1 - u2) := by
    unfold u2
    norm_num
  calc |floatRound (floatRound tp - 1)|
      ≤ |floatRound tp - 1| * (1 + u2) := hb
    _ ≤ (|tp - 1| + 2 * u2) * (1 + u2) := by nlinarith
    _ ≤ (1 / 100000000 + 2 * u2) * (1 + u2) := by nlinarith
    _ ≤ (1 / 10000 : ℚ) * (1 - u2) := key
    _ ≤ floatRound (1 / 10000) := hrhs

lemma getD_nonneg (ms : List ℚ) (hnn : ∀ m ∈ ms, 0 ≤ m) (i : ℕ) : 0 ≤ ms.getD i 0 := by
  by_cases h : i < ms.length
  · rw [List.getD_eq_getElem ms 0 h]
    exact hnn _ (List.getElem_mem h)
  · have hz : ms.getD i 0 = 0 := by
      unfold List.getD
      rw [List.get?_eq_none.mpr (by omega)]
      rfl
    rw [hz]

lemma getD_le (ms : List ℚ) (hub : ∀ m ∈ ms, m ≤ 1000) (i : ℕ) : ms.getD i 0 ≤ 1000 := by
  by_cases h : i < ms.length
  · rw [List.getD_eq_getElem ms 0 h]
    exact hub _ (List.getElem_mem h)
  · have hz : ms.getD i 0 = 0 := by
      unfold List.getD
      rw [List.get?_eq_none.mpr (by omega)]
      rfl
    rw [hz]
    norm_num

/-- The accumulated `total_rtp` stays within `10 ^ (-9)` of the exact sum
of the per-bucket contributions. -/
lemma rtpFold_close (rows : ℕ) (ms : List ℚ) (hrows : rows ≤ 20)
    (hnn : ∀ m ∈ ms, 0 ≤ m) (hub : ∀ m ∈ ms, m ≤ 1000) :
    |rtpFold rows (rows + 1) ms -
      ∑ i ∈ Finset.range (rows + 1), dMul (bprob rows i LEFT_PROBABILITY) (ms.getD i 0)| ≤
    1 / 1000000000 := by
  have hu1 : (0 : ℚ) ≤ 1 - u10 := by linarith [u10_lt_one]
  have hu2' : (0 : ℚ) ≤ 1 + u10 := by linarith [u10_pos]
  have hfnn : ∀ i ∈ List.range (rows + 1),
      0 ≤ dMul (bprob rows i LEFT_PROBABILITY) (ms.getD i 0) := by
    intro i hi
    unfold dMul
    exact decRound_nonneg _
      (mul_nonneg (bprob_nonneg rows i (by simp at hi; omega)) (getD_nonneg ms hnn i))
  have hge := foldl_dAdd_ge (fun i => dMul (bprob rows i LEFT_PROBABILITY) (ms.getD i 0))
    (List.range (rows + 1)) hfnn 0 le_rfl
  have hle := foldl_dAdd_le (fun i => dMul (bprob rows i LEFT_PROBABILITY) (ms.getD i 0))
    (List.range (rows + 1)) hfnn 0 le_rfl
  rw [zero_add, sum_list_range, List.length_range] at hge hle
  set S : ℚ := ∑ i ∈ Finset.range (rows + 1),
    dMul (bprob rows i LEFT_PROBABILITY) (ms.getD i 0) with hS
  have hS0 : 0 ≤ S := by
    rw [hS]
    exact Finset.sum_nonneg (fun i hi => hfnn i (by simpa using hi))
  have hfub : ∀ i ∈ Finset.range (rows + 1),
      dMul (bprob rows i LEFT_PROBABILITY) (ms.getD i 0) ≤
        bprob rows i LEFT_PROBABILITY * 1000 * (1 + u10) := by
    intro i hi
    have hik : i ≤ rows := by simp at hi; omega
    have hb0 := bprob_nonneg rows i hik
    have hg0 := getD_nonneg ms hnn i
    have h1 : dMul (bprob rows i LEFT_PROBABILITY) (ms.getD i 0) ≤
        (bprob rows i LEFT_PROBABILITY * ms.getD i 0) * (1 + u10) := by
      unfold dMul
      exact decRound_le _ (mul_nonneg hb0 hg0)
    have h2 : bprob rows i LEFT_PROBABILITY * ms.getD i 0 ≤
        bprob rows i LEFT_PROBABILITY * 1000 :=
      mul_le_mul_of_nonneg_left (getD_le ms hub i) hb0
    nlinarith
  have hSsum : S ≤ (∑ i ∈ Finset.range (rows + 1), bprob rows i LEFT_PROBABILITY) *
      1000 * (1 + u10) := by
    rw [hS]
    calc ∑ i ∈ Finset.range (rows + 1), dMul (bprob rows i LEFT_PROBABILITY) (ms.getD i 0)
        ≤ ∑ i ∈ Finset.range (rows + 1), bprob rows i LEFT_PROBABILITY * 1000 * (1 + u10) :=
          Finset.sum_le_sum hfub
      _ = (∑ i ∈ Finset.range (rows + 1), bprob rows i LEFT_PROBABILITY) * 1000 * (1 + u10) := by
          rw [← Finset.sum_mul, ← Finset.sum_mul]
  have hpsum := (sum_bprob_bounds rows LEFT_PROBABILITY LP_pos LP_lt_one).2
  have hpow2 : (1 + u10) ^ (rows + 4) ≤ 2 := by
    have hmu : 2 * ((rows + 4 : ℕ) : ℚ) * u10 ≤ 1 := by
      have hc : ((rows + 4 : ℕ) : ℚ) ≤ 24 := by
        have h24 : (rows + 4 : ℕ) ≤ 24 := by omega
        exact_mod_cast h24
      have h48 : 2 * (24 : ℚ) * u10 ≤ 1 := by unfold u10; norm_num
      nlinarith [u10_pos]
    have h := pow_one_add_le u10 u10_pos.le (rows + 4) hmu
    have hc : ((rows + 4 : ℕ) : ℚ) ≤ 24 := by
      have h24 : (rows + 4 : ℕ) ≤ 24 := by omega
      exact_mod_cast h24
    have h48v : 2 * (24 : ℚ) * u10 ≤ 1 := by unfold u10; norm_num
    nlinarith [u10_pos]
  have hS4000 : S ≤ 4000 := by
    have hup : (1 : ℚ) + u10 ≤ 2 := by linarith [u10_lt_one]
    calc S ≤ (∑ i ∈ Finset.range (rows + 1), bprob rows i LEFT_PROBABILITY) *
          1000 * (1 + u10) := hSsum
      _ ≤ 2 * 1000 * 2 := by
          have hpos : (0 : ℚ) ≤ ∑ i ∈ Finset.range (rows + 1), bprob rows i LEFT_PROBABILITY :=
            Finset.sum_nonneg (fun i hi => bprob_nonneg rows i (by simp at hi; omega))
          have hps2 : (∑ i ∈ Finset.range (rows + 1), bprob rows i LEFT_PROBABILITY) ≤ 2 :=
            le_trans hpsum hpow2
          nlinarith
      _ = 4000 := by norm_num
  have hcount : ((rows + 1 : ℕ) : ℚ) ≤ 21 := by
    have h21 : (rows + 1 : ℕ) ≤ 21 := by omega
    exact_mod_cast h21
  have hup1 : (1 + u10) ^ (rows + 1) - 1 ≤ 2 * ((rows + 1 : ℕ) : ℚ) * u10 := by
    have hmu : 2 * ((rows + 1 : ℕ) : ℚ) * u10 ≤ 1 := by
      have h42 : 2 * (21 : ℚ) * u10 ≤ 1 := by unfold u10; norm_num
      nlinarith [u10_pos]
    linarith [pow_one_add_le u10 u10_pos.le (rows + 1) hmu]
  have hlo1 : 1 - (1 - u10) ^ (rows + 1) ≤ ((rows + 1 : ℕ) : ℚ) * u10 := by
    linarith [one_sub_mul_le_pow u10 u10_lt_one.le (rows + 1)]
  have hgeR : S * (1 - u10) ^ (rows + 1) ≤ rtpFold rows (rows + 1) ms := hge
  have hleR : rtpFold rows (rows + 1) ms ≤ S * (1 + u10) ^ (rows + 1) := hle
  rw [abs_le]
  constructor
  · have e1 : S * (1 - u10) ^ (rows + 1) - S = -(S * (1 - (1 - u10) ^ (rows + 1))) := by ring
    have h1 : S * (1 - (1 - u10) ^ (rows + 1)) ≤ S * (((rows + 1 : ℕ) : ℚ) * u10) :=
      mul_le_mul_of_nonneg_left hlo1 hS0
    have h2 : S * (((rows + 1 : ℕ) : ℚ) * u10) ≤ 4000 * (21 * u10) := by
      have s1 : S * (((rows + 1 : ℕ) : ℚ) * u10) ≤ 4000 * (((rows + 1 : ℕ) : ℚ) * u10) :=
        mul_le_mul_of_nonneg_right hS4000 (mul_nonneg (Nat.cast_nonneg _) u10_pos.le)
      have s2 : ((rows + 1 : ℕ) : ℚ) * u10 ≤ 21 * u10 :=
        mul_le_mul_of_nonneg_right hcount u10_pos.le
      have s3 : (4000 : ℚ) * (((rows + 1 : ℕ) : ℚ) * u10) ≤ 4000 * (21 * u10) :=
        mul_le_mul_of_nonneg_left s2 (by norm_num)
      linarith
    have h3 : (4000 : ℚ) * (21 * u10) ≤ 1 / 1000000000 := by unfold u10; norm_num
    linarith [hgeR]
  · have h1 : S * ((1 + u10) ^ (rows + 1) - 1) ≤ S * (2 * ((rows + 1 : ℕ) : ℚ) * u10) :=
      mul_le_mul_of_nonneg_left hup1 hS0
    have h2 : S * (2 * ((rows + 1 : ℕ) : ℚ) * u10) ≤ 4000 * (42 * u10) := by
      have c42 : 2 * ((rows + 1 : ℕ) : ℚ) ≤ 42 := by linarith
      have s2 : 2 * ((rows + 1 : ℕ) : ℚ) * u10 ≤ 42 * u10 :=
        mul_le_mul_of_nonneg_right c42 u10_pos.le
      have hnn2 : (0 : ℚ) ≤ 2 * ((rows + 1 : ℕ) : ℚ) * u10 :=
        mul_nonneg (by positivity) u10_pos.le
      have s1 : S * (2 * ((rows + 1 : ℕ) : ℚ) * u10) ≤ 4000 * (2 * ((rows + 1 : ℕ) : ℚ) * u10) :=
        mul_le_mul_of_nonneg_right hS4000 hnn2
      have s3 : (4000 : ℚ) * (2 * ((rows + 1 : ℕ) : ℚ) * u10) ≤ 4000 * (42 * u10) :=
        mul_le_mul_of_nonneg_left s2 (by norm_num)
      linarith
    have h3 : (4000 : ℚ) * (42 * u10) ≤ 1 / 1000000000 := by unfold u10; norm_num
    linarith [hleR]

/-- Absolute form of the accumulated relative error. -/
lemma relB_abs (j : ℕ) (x t : ℚ) (h : relB j x t) (ht : 0 ≤ t) :
    |x - t| ≤ t * ((1 + u10) ^ j - 1) := by
  have hb1 := one_sub_mul_le_pow u10 u10_lt_one.le j
  have hb2 := one_add_mul_le_pow (a := u10) (by linarith [u10_pos] : (-2 : ℚ) ≤ u10) j
  have hl := h.1
  have hu := h.2
  rw [abs_le]
  constructor
  · have s1 : t * (1 - (j : ℚ) * u10) ≤ t * (1 - u10) ^ j :=
      mul_le_mul_of_nonneg_left hb1 ht
    have s2 : t * (1 + (j : ℚ) * u10) ≤ t * (1 + u10) ^ j :=
      mul_le_mul_of_nonneg_left hb2 ht
    nlinarith
  · have e : t * ((1 + u10) ^ j - 1) = t * (1 + u10) ^ j - t := by ring
    linarith

lemma dPow_zero (x : ℚ) : dPow x 0 = 1 := by
  unfold dPow
  rw [zpow_zero]
  exact decRound_one

lemma dMul_one_left (y : ℚ) : dMul 1 y = decRound y := by
  unfold dMul
  rw [one_mul]

lemma dMul_one_right (x : ℚ) : dMul x 1 = decRound x := by
  unfold dMul
  rw [mul_one]

lemma decRound_dPow (x : ℚ) (k : ℤ) : decRound (dPow x k) = dPow x k := by
  unfold dPow
  exact decRound_idem _

lemma probOf_eq (n k : ℕ) (p : ℚ) (hp0 : p ≠ 0) (hp1 : p ≠ 1) :
    probOf n k p = bprob n k p := by
  unfold probOf
  rw [binomial_probability_nat n k p hp0 hp1]
  rfl

/-- Everything `calculate_rtp` guarantees on a properly catalogued row count. -/
lemma calc_row (rows : ℕ) (ms : List ℚ)
    (hlook : MULTIPLIER_TABLES.lookup (rows : ℤ) = some ms)
    (hlen : ms.length = rows + 1) (hrows : rows ≤ 20)
    (hnn : ∀ m ∈ ms, 0 ≤ m) (hub : ∀ m ∈ ms, m ≤ 1000) :
    ∃ res : RTPResult,
      calculate_rtp (rows : ℤ) = .ok res ∧
      res.total_prob = tpFold rows (rows + 1) ∧
      res.total_rtp = rtpFold rows (rows + 1) ms ∧
      res.returned = floatRound res.total_rtp ∧
      res.warned = false ∧
      |res.total_prob - 1| ≤ 1 / 1000000000 ∧
      |res.total_rtp - ∑ i ∈ Finset.range (rows + 1),
        dMul (bprob rows i LEFT_PROBABILITY) (ms.getD i 0)| ≤ 1 / 1000000000 := by
  have hev := calculate_rtp_eval rows ms hlook
  rw [hlen] at hev
  have htp := tpFold_close rows hrows
  exact ⟨_, hev, rfl, rfl, rfl, warned_false _ (le_trans htp (by norm_num)), htp,
    rtpFold_close rows ms hrows hnn hub⟩

lemma calc_row_11 :
    ∃ res : RTPResult,
      calculate_rtp ((11 : ℕ) : ℤ) = .ok res ∧
      res.total_prob = tpFold 11 12 ∧
      res.total_rtp = rtpFold 11 12 [120, 14, 5.2, 1.4, 0.4, 0.2, 0.2, 0.4, 1.4, 5.2, 14, 120] ∧
      res.returned = floatRound res.total_rtp ∧
      res.warned = false ∧
      |res.total_prob - 1| ≤ 1 / 1000000000 ∧
      |res.total_rtp - ∑ i ∈ Finset.range 12,
        dMul (bprob 11 i LEFT_PROBABILITY)
          (List.getD [120, 14, 5.2, 1.4, 0.4, 0.2, 0.2, 0.4, 1.4, 5.2, 14, 120] i 0)| ≤
        1 / 1000000000 :=
  calc_row 11 _ rfl rfl (by norm_num)
    (by intro m hm; fin_cases hm <;> norm_num)
    (by intro m hm; fin_cases hm <;> norm_num)

lemma calc_row_12 :
    ∃ res : RTPResult,
      calculate_rtp ((12 : ℕ) : ℤ) = .ok res ∧
      res.total_prob = tpFold 12 13 ∧
      res.total_rtp = rtpFold 12 13 [170, 24, 8.1, 2, 0.7, 0.2, 0.2, 0.2, 0.7, 2, 8.1, 24, 170] ∧
      res.returned = floatRound res.total_rtp ∧
      res.warned = false ∧
      |res.total_prob - 1| ≤ 1 / 1000000000 ∧
      |res.total_rtp - ∑ i ∈ Finset.range 13,
        dMul (bprob 12 i LEFT_PROBABILITY)
          (List.getD [170, 24, 8.1, 2, 0.7, 0.2, 0.2, 0.2, 0.7, 2, 8.1, 24, 170] i 0)| ≤
        1 / 1000000000 :=
  calc_row 12 _ rfl rfl (by norm_num)
    (by intro m hm; fin_cases hm <;> norm_num)
    (by intro m hm; fin_cases hm <;> norm_num)

lemma calc_row_13 :
    ∃ res : RTPResult,
      calculate_rtp ((13 : ℕ) : ℤ) = .ok res ∧
      res.total_prob = tpFold 13 14 ∧
      res.total_rtp = rtpFold 13 14 [260, 37, 11, 4, 1, 0.2, 0.2, 0.2, 0.2, 1, 4, 11, 37, 260] ∧
      res.returned = floatRound res.total_rtp ∧
      res.warned = false ∧
      |res.total_prob - 1| ≤ 1 / 1000000000 ∧
      |res.total_rtp - ∑ i ∈ Finset.range 14,
        dMul (bprob 13 i LEFT_PROBABILITY)
          (List.getD [260, 37, 11, 4, 1, 0.2, 0.2, 0.2, 0.2, 1, 4, 11, 37, 260] i 0)| ≤
        1 / 1000000000 :=
  calc_row 13 _ rfl rfl (by norm_num)
    (by intro m hm; fin_cases hm <;> norm_num)
    (by intro m hm; fin_cases hm <;> norm_num)

lemma calc_row_14 :
    ∃ res : RTPResult,
      calculate_rtp ((14 : ℕ) : ℤ) = .ok res ∧
      res.total_prob = tpFold 14 15 ∧
      res.total_rtp = rtpFold 14 15
        [420, 56, 18, 5, 1.9, 0.3, 0.2, 0.2, 0.2, 0.3, 1.9, 5, 18, 56, 420] ∧
      res.returned = floatRound res.total_rtp ∧
      res.warned = false ∧
      |res.total_prob - 1| ≤ 1 / 1000000000 ∧
      |res.total_rtp - ∑ i ∈ Finset.range 15,
        dMul (bprob 14 i LEFT_PROBABILITY)
          (List.getD [420, 56, 18, 5, 1.9, 0.3, 0.2, 0.2, 0.2, 0.3, 1.9, 5, 18, 56, 420] i 0)| ≤
        1 / 1000000000 :=
  calc_row 14 _ rfl rfl (by norm_num)
    (by intro m hm; fin_cases hm <;> norm_num)
    (by intro m hm; fin_cases hm <;> norm_num)

lemma calc_row_15 :
    ∃ res : RTPResult,
      calculate_rtp ((15 : ℕ) : ℤ) = .ok res ∧
      res.total_prob = tpFold 15 16 ∧
      res.total_rtp = rtpFold 15 16
        [620, 83, 27, 8, 3, 0.5, 0.2, 0.2, 0.2, 0.2, 0.5, 3, 8, 27, 83, 620] ∧
      res.returned = floatRound res.total_rtp ∧
      res.warned = false ∧
      |res.total_prob - 1| ≤ 1 / 1000000000 ∧
      |res.total_rtp - ∑ i ∈ Finset.range 16,
        dMul (bprob 15 i LEFT_PROBABILITY)
          (List.getD [620, 83, 27, 8, 3, 0.5, 0.2, 0.2, 0.2, 0.2, 0.5, 3, 8, 27, 83, 620] i 0)| ≤
        1 / 1000000000 :=
  calc_row 15 _ rfl rfl (by norm_num)
    (by intro m hm; fin_cases hm <;> norm_num)
    (by intro m hm; fin_cases hm <;> norm_num)

lemma calc_row_16 :
    ∃ res : RTPResult,
      calculate_rtp ((16 : ℕ) : ℤ) = .ok res ∧
      res.total_prob = tpFold 16 17 ∧
      res.total_rtp = rtpFold 16 17
        [1000, 130, 26, 9, 4, 2, 0.2, 0.2, 0.2, 0.2, 0.2, 2, 4, 9, 26, 130, 1000] ∧
      res.returned = floatRound res.total_rtp ∧
      res.warned = false ∧
      |res.total_prob - 1| ≤ 1 / 1000000000 ∧
      |res.total_rtp - ∑ i ∈ Finset.range 17,
        dMul (bprob 16 i LEFT_PROBABILITY)
          (List.getD [1000, 130, 26, 9, 4, 2, 0.2, 0.2, 0.2, 0.2, 0.2, 2, 4, 9, 26, 130, 1000] i 0)| ≤
        1 / 1000000000 :=
  calc_row 16 _ rfl rfl (by norm_num)
    (by intro m hm; fin_cases hm <;> norm_num)
    (by intro m hm; fin_cases hm <;> norm_num)

/-! Concrete evaluation facts for the counterexample rows, each rounding
step certified against the half-even characterization lemmas. -/

lemma g_dsub_lp : dSub 1 LEFT_PROBABILITY = ((20001 : ℚ) / 40000) :=
  (decRound_eq_self ((1 : ℚ) - ((499975 : ℚ) / 1000000)) (500025) (-6) (by norm_num) (by norm_num)).trans
    (by norm_num)

lemma g_lp_pow_0 : dPow LEFT_PROBABILITY 0 = (1 : ℚ) :=
  (decRound_eq_self (((499975 : ℚ) / 1000000) ^ (0 : ℤ)) (1) (0) (by norm_num) (by norm_num)).trans
    (by norm_num)

lemma g_lp_pow_1 : dPow LEFT_PROBABILITY 1 = ((19999 : ℚ) / 40000) :=
  (decRound_eq_self (((499975 : ℚ) / 1000000) ^ (1 : ℤ)) (499975) (-6) (by norm_num) (by norm_num)).trans
    (by norm_num)

lemma g_lp_pow_2 : dPow LEFT_PROBABILITY 2 = ((399960001 : ℚ) / 1600000000) :=
  (decRound_eq_self (((499975 : ℚ) / 1000000) ^ (2 : ℤ)) (249975000625) (-12) (by norm_num) (by norm_num)).trans
    (by norm_num)

lemma g_lp_pow_3 : dPow LEFT_PROBABILITY 3 = ((7998800059999 : ℚ) / 64000000000000) :=
  (decRound_eq_self (((499975 : ℚ) / 1000000) ^ (3 : ℤ)) (124981250937484375) (-18) (by norm_num) (by norm_num)).trans
    (by norm_num)

lemma g_lp_pow_4 : dPow LEFT_PROBABILITY 4 = ((159968002399920001 : ℚ) / 2560000000000000000) :=
  (decRound_eq_self (((499975 : ℚ) / 1000000) ^ (4 : ℤ)) (62487500937468750390625) (-24) (by norm_num) (by norm_num)).trans
    (by norm_num)

lemma g_lp_pow_5 : dPow LEFT_PROBABILITY 5 = ((3199200079996000099999 : ℚ) / 102400000000000000000000) :=
  (decRound_eq_self (((499975 : ℚ) / 1000000) ^ (5 : ℤ)) (31242188281210938476552734375) (-30) (by norm_num) (by norm_num)).trans
    (by norm_num)

lemma g_lp_pow_6 : dPow LEFT_PROBABILITY 6 = ((63980802399840005999880001 : ℚ) / 4096000000000000000000000000) :=
  (decRound_eq_self (((499975 : ℚ) / 1000000) ^ (6 : ℤ)) (15620313085898438964814453369140625) (-36) (by norm_num) (by norm_num)).trans
    (by norm_num)

lemma g_lp_pow_7 : dPow LEFT_PROBABILITY 7 = ((1279552067194400279991600139999 : ℚ) / 163840000000000000000000000000000) :=
  (decRound_eq_self (((499975 : ℚ) / 1000000) ^ (7 : ℤ)) (7809766035122072021433106323236083984375) (-42) (by norm_num) (by norm_num)).trans
    (by norm_num)

lemma g_lp_pow_8 : dPow LEFT_PROBABILITY 8 = ((25589761791820811199552011199840001 : ℚ) / 6553600000000000000000000000000000000) :=
  (decRound_eq_self (((499975 : ℚ) / 1000000) ^ (8 : ℤ)) (3904687773410157958916017333959961090087890625) (-48) (by norm_num) (by norm_num)).trans
    (by norm_num)

lemma g_lp_pow_9 : dPow LEFT_PROBABILITY 9 = ((2440307836888429656886294708183289432520866394043 : ℚ) / 1250000000000000000000000000000000000000000000000000) :=
  (decRound_eq_up (((499975 : ℚ) / 1000000) ^ (9 : ℤ)) (-3) (19522462695107437255090357665466315460166931152343) (by norm_num) (by norm_num) (by norm_num)
    (by norm_num) (by norm_num)).trans (by norm_num)

lemma g_lp_pow_10 : dPow LEFT_PROBABILITY 10 = ((97607432859863409416138015737915210721969614028931 : ℚ) / 100000000000000000000000000000000000000000000000000000) :=
  (decRound_eq_up (((499975 : ℚ) / 1000000) ^ (10 : ℤ)) (-4) (97607432859863409416138015737915210721969614028930) (by norm_num) (by norm_num) (by norm_num)
    (by norm_num) (by norm_num)).trans (by norm_num)

lemma g_lp_pow_11 : dPow LEFT_PROBABILITY 11 = ((9760255248822041624566720883712831496143351554823 : ℚ) / 20000000000000000000000000000000000000000000000000000) :=
  (decRound_eq_up (((499975 : ℚ) / 1000000) ^ (11 : ℤ)) (-4) (48801276244110208122833604418564157480716757774114) (by norm_num) (by norm_num) (by norm_num)
    (by norm_num) (by norm_num)).trans (by norm_num)

lemma g_q_pow_0 : dPow ((20001 : ℚ) / 40000) 0 = (1 : ℚ) :=
  (decRound_eq_self (((20001 : ℚ) / 40000) ^ (0 : ℤ)) (1) (0) (by norm_num) (by norm_num)).trans
    (by norm_num)

lemma g_q_pow_1 : dPow ((20001 : ℚ) / 40000) 1 = ((20001 : ℚ) / 40000) :=
  (decRound_eq_self (((20001 : ℚ) / 40000) ^ (1 : ℤ)) (500025) (-6) (by norm_num) (by norm_num)).trans
    (by norm_num)

lemma g_q_pow_2 : dPow ((20001 : ℚ) / 40000) 2 = ((400040001 : ℚ) / 1600000000) :=
  (decRound_eq_self (((20001 : ℚ) / 40000) ^ (2 : ℤ)) (250025000625) (-12) (by norm_num) (by norm_num)).trans
    (by norm_num)

lemma g_q_pow_3 : dPow ((20001 : ℚ) / 40000) 3 = ((8001200060001 : ℚ) / 64000000000000) :=
  (decRound_eq_self (((20001 : ℚ) / 40000) ^ (3 : ℤ)) (125018750937515625) (-18) (by norm_num) (by norm_num)).trans
    (by norm_num)

lemma g_q_pow_4 : dPow ((20001 : ℚ) / 40000) 4 = ((160032002400080001 : ℚ) / 2560000000000000000) :=
  (decRound_eq_self (((20001 : ℚ) / 40000) ^ (4 : ℤ)) (62512500937531250390625) (-24) (by norm_num) (by norm_num)).trans
    (by norm_num)

lemma g_q_pow_5 : dPow ((20001 : ℚ) / 40000) 5 = ((3200800080004000100001 : ℚ) / 102400000000000000000000) :=
  (decRound_eq_self (((20001 : ℚ) / 40000) ^ (5 : ℤ)) (31257813281289063476572265625) (-30) (by norm_num) (by norm_num)).trans
    (by norm_num)

lemma g_q_pow_6 : dPow ((20001 : ℚ) / 40000) 6 = ((64019202400160006000120001 : ℚ) / 4096000000000000000000000000) :=
  (decRound_eq_self (((20001 : ℚ) / 40000) ^ (6 : ℤ)) (15629688085976563964873047119140625) (-36) (by norm_num) (by norm_num)).trans
    (by norm_num)

lemma g_q_pow_7 : dPow ((20001 : ℚ) / 40000) 7 = ((1280448067205600280008400140001 : ℚ) / 163840000000000000000000000000000) :=
  (decRound_eq_self (((20001 : ℚ) / 40000) ^ (7 : ℤ)) (7815234785190431396535645385748291015625) (-42) (by norm_num) (by norm_num)).trans
    (by norm_num)

lemma g_q_pow_8 : dPow ((20001 : ℚ) / 40000) 8 = ((25610241792179211200448011200160001 : ℚ) / 6553600000000000000000000000000000000) :=
  (decRound_eq_self (((20001 : ℚ) / 40000) ^ (8 : ℤ)) (3907812773464845459052736084008789215087890625) (-48) (by norm_num) (by norm_num)).trans
    (by norm_num)

lemma g_q_pow_9 : dPow ((20001 : ℚ) / 40000) 9 = ((2442505102564699188328555450508118534092903137207 : ℚ) / 1250000000000000000000000000000000000000000000000000) :=
  (decRound_eq_down (((20001 : ℚ) / 40000) ^ (9 : ℤ)) (-3) (19540040820517593506628443604064948272743225097656) (by norm_num) (by norm_num) (by norm_num)
    (by norm_num) (by norm_num)).trans (by norm_num)

lemma g_q_pow_10 : dPow ((20001 : ℚ) / 40000) 10 = ((24426272278198274232879718782806439400196077823639 : ℚ) / 25000000000000000000000000000000000000000000000000000) :=
  (decRound_eq_up (((20001 : ℚ) / 40000) ^ (10 : ℤ)) (-4) (97705089112793096931518875131225757600784311294555) (by norm_num) (by norm_num) (by norm_num)
    (by norm_num) (by norm_num)).trans (by norm_num)

lemma g_q_pow_11 : dPow ((20001 : ℚ) / 40000) 11 = ((2442749359181218414659136276874557972216608762753 : ℚ) / 5000000000000000000000000000000000000000000000000000) :=
  (decRound_eq_down (((20001 : ℚ) / 40000) ^ (11 : ℤ)) (-4) (48854987183624368293182725537491159444332175255060) (by norm_num) (by norm_num) (by norm_num)
    (by norm_num) (by norm_num)).trans (by norm_num)

lemma g_a11_0 : dMul ((1 : ℕ) : ℚ) (1 : ℚ) = (1 : ℚ) :=
  (decRound_eq_self (((1 : ℕ) : ℚ) * (1 : ℚ)) (1) (0) (by norm_num) (by norm_num)).trans
    (by norm_num)

lemma g_b11_0 : dMul (1 : ℚ) ((2442749359181218414659136276874557972216608762753 : ℚ) / 5000000000000000000000000000000000000000000000000000) = ((2442749359181218414659136276874557972216608762753 : ℚ) / 5000000000000000000000000000000000000000000000000000) :=
  (decRound_eq_self ((1 : ℚ) * ((2442749359181218414659136276874557972216608762753 : ℚ) / 5000000000000000000000000000000000000000000000000000)) (4885498718362436829318272553749115944433217525506) (-52) (by norm_num) (by norm_num)).trans
    (by norm_num)

lemma g_bp11_0 : bprob 11 0 LEFT_PROBABILITY = ((2442749359181218414659136276874557972216608762753 : ℚ) / 5000000000000000000000000000000000000000000000000000) :=
  bprob_eval 11 0 LEFT_PROBABILITY _ _ _ _ _ 1 (by decide) g_dsub_lp
    g_lp_pow_0 g_q_pow_11 g_a11_0 g_b11_0

lemma g_a11_1 : dMul ((11 : ℕ) : ℚ) ((19999 : ℚ) / 40000) = ((219989 : ℚ) / 40000) :=
  (decRound_eq_self (((11 : ℕ) : ℚ) * ((19999 : ℚ) / 40000)) (5499725) (-6) (by norm_num) (by norm_num)).trans
    (by norm_num)

lemma g_b11_1 : dMul ((219989 : ℚ) / 40000) ((24426272278198274232879718782806439400196077823639 : ℚ) / 25000000000000000000000000000000000000000000000000000) = ((10747022424417120300433952910621611594419469928689 : ℚ) / 2000000000000000000000000000000000000000000000000000) :=
  (decRound_eq_down (((219989 : ℚ) / 40000) * ((24426272278198274232879718782806439400196077823639 : ℚ) / 25000000000000000000000000000000000000000000000000000)) (-3) (53735112122085601502169764553108057972097349643445) (by norm_num) (by norm_num) (by norm_num)
    (by norm_num) (by norm_num)).trans (by norm_num)

lemma g_bp11_1 : bprob 11 1 LEFT_PROBABILITY = ((10747022424417120300433952910621611594419469928689 : ℚ) / 2000000000000000000000000000000000000000000000000000) :=
  bprob_eval 11 1 LEFT_PROBABILITY _ _ _ _ _ 11 (by decide) g_dsub_lp
    g_lp_pow_1 g_q_pow_10 g_a11_1 g_b11_1

lemma g_a11_2 : dMul ((55 : ℕ) : ℚ) ((399960001 : ℚ) / 1600000000) = ((4399560011 : ℚ) / 320000000) :=
  (decRound_eq_self (((55 : ℕ) : ℚ) * ((399960001 : ℚ) / 1600000000)) (13748625034375) (-12) (by norm_num) (by norm_num)).trans
    (by norm_num)

lemma g_b11_2 : dMul ((4399560011 : ℚ) / 320000000) ((2442505102564699188328555450508118534092903137207 : ℚ) / 1250000000000000000000000000000000000000000000000000) = ((26864869439767760223036176223629019833607692003381 : ℚ) / 1000000000000000000000000000000000000000000000000000) :=
  (decRound_eq_up (((4399560011 : ℚ) / 320000000) * ((2442505102564699188328555450508118534092903137207 : ℚ) / 1250000000000000000000000000000000000000000000000000)) (-2) (26864869439767760223036176223629019833607692003380) (by norm_num) (by norm_num) (by norm_num)
    (by norm_num) (by norm_num)).trans (by norm_num)

lemma g_bp11_2 : bprob 11 2 LEFT_PROBABILITY = ((26864869439767760223036176223629019833607692003381 : ℚ) / 1000000000000000000000000000000000000000000000000000) :=
  bprob_eval 11 2 LEFT_PROBABILITY _ _ _ _ _ 55 (by decide) g_dsub_lp
    g_lp_pow_2 g_q_pow_9 g_a11_2 g_b11_2

lemma g_a11_3 : dMul ((165 : ℕ) : ℚ) ((7998800059999 : ℚ) / 64000000000000) = ((263960401979967 : ℚ) / 12800000000000) :=
  (decRound_eq_self (((165 : ℕ) : ℚ) * ((7998800059999 : ℚ) / 64000000000000)) (20621906404684921875) (-18) (by norm_num) (by norm_num)).trans
    (by norm_num)

lemma g_b11_3 : dMul ((263960401979967 : ℚ) / 12800000000000) ((25610241792179211200448011200160001 : ℚ) / 6553600000000000000000000000000000000) = ((80586549261424244292860430222942368029446562528217 : ℚ) / 1000000000000000000000000000000000000000000000000000) :=
  (decRound_eq_up (((263960401979967 : ℚ) / 12800000000000) * ((25610241792179211200448011200160001 : ℚ) / 6553600000000000000000000000000000000)) (-2) (80586549261424244292860430222942368029446562528216) (by norm_num) (by norm_num) (by norm_num)
    (by norm_num) (by norm_num)).trans (by norm_num)

lemma g_bp11_3 : bprob 11 3 LEFT_PROBABILITY = ((80586549261424244292860430222942368029446562528217 : ℚ) / 1000000000000000000000000000000000000000000000000000) :=
  bprob_eval 11 3 LEFT_PROBABILITY _ _ _ _ _ 165 (by decide) g_dsub_lp
    g_lp_pow_3 g_q_pow_8 g_a11_3 g_b11_3

lemma g_a11_4 : dMul ((330 : ℕ) : ℚ) ((159968002399920001 : ℚ) / 2560000000000000000) = ((5278944079197360033 : ℚ) / 256000000000000000) :=
  (decRound_eq_self (((330 : ℕ) : ℚ) * ((159968002399920001 : ℚ) / 2560000000000000000)) (2062087530936468762890625) (-23) (by norm_num) (by norm_num)).trans
    (by norm_num)

lemma g_b11_4 : dMul ((5278944079197360033 : ℚ) / 256000000000000000) ((1280448067205600280008400140001 : ℚ) / 163840000000000000000000000000000) = ((322313964037642810182074045103469710158672427179 : ℚ) / 2000000000000000000000000000000000000000000000000) :=
  (decRound_eq_down (((5278944079197360033 : ℚ) / 256000000000000000) * ((1280448067205600280008400140001 : ℚ) / 163840000000000000000000000000000)) (-1) (16115698201882140509103702255173485507933621358950) (by norm_num) (by norm_num) (by norm_num)
    (by norm_num) (by norm_num)).trans (by norm_num)

lemma g_bp11_4 : bprob 11 4 LEFT_PROBABILITY = ((322313964037642810182074045103469710158672427179 : ℚ) / 2000000000000000000000000000000000000000000000000) :=
  bprob_eval 11 4 LEFT_PROBABILITY _ _ _ _ _ 330 (by decide) g_dsub_lp
    g_lp_pow_4 g_q_pow_7 g_a11_4 g_b11_4

lemma g_a11_5 : dMul ((462 : ℕ) : ℚ) ((3199200079996000099999 : ℚ) / 102400000000000000000000) = ((739015218479076023099769 : ℚ) / 51200000000000000000000) :=
  (decRound_eq_self (((462 : ℕ) : ℚ) * ((3199200079996000099999 : ℚ) / 102400000000000000000000)) (1443389098591945357616736328125) (-29) (by norm_num) (by norm_num)).trans
    (by norm_num)

lemma g_b11_5 : dMul ((739015218479076023099769 : ℚ) / 51200000000000000000000) ((64019202400160006000120001 : ℚ) / 4096000000000000000000000000) = ((22559721397690980413888851455512241955023763360867 : ℚ) / 100000000000000000000000000000000000000000000000000) :=
  (decRound_eq_down (((739015218479076023099769 : ℚ) / 51200000000000000000000) * ((64019202400160006000120001 : ℚ) / 4096000000000000000000000000)) (-1) (22559721397690980413888851455512241955023763360867) (by norm_num) (by norm_num) (by norm_num)
    (by norm_num) (by norm_num)).trans (by norm_num)

lemma g_bp11_5 : bprob 11 5 LEFT_PROBABILITY = ((22559721397690980413888851455512241955023763360867 : ℚ) / 100000000000000000000000000000000000000000000000000) :=
  bprob_eval 11 5 LEFT_PROBABILITY _ _ _ _ _ 462 (by decide) g_dsub_lp
    g_lp_pow_5 g_q_pow_6 g_a11_5 g_b11_5

lemma g_a11_6 : dMul ((462 : ℕ) : ℚ) ((63980802399840005999880001 : ℚ) / 4096000000000000000000000000) = ((14779565354363041385972280231 : ℚ) / 2048000000000000000000000000) :=
  (decRound_eq_self (((462 : ℕ) : ℚ) * ((63980802399840005999880001 : ℚ) / 4096000000000000000000000000)) (721658464568507880174427745654296875) (-35) (by norm_num) (by norm_num)).trans
    (by norm_num)

lemma g_b11_6 : dMul ((14779565354363041385972280231 : ℚ) / 2048000000000000000000000000) ((3200800080004000100001 : ℚ) / 102400000000000000000000) = ((5639366384586044663983840061231804995481728956727 : ℚ) / 25000000000000000000000000000000000000000000000000) :=
  (decRound_eq_up (((14779565354363041385972280231 : ℚ) / 2048000000000000000000000000) * ((3200800080004000100001 : ℚ) / 102400000000000000000000)) (-1) (22557465538344178655935360244927219981926915826907) (by norm_num) (by norm_num) (by norm_num)
    (by norm_num) (by norm_num)).trans (by norm_num)

lemma g_bp11_6 : bprob 11 6 LEFT_PROBABILITY = ((5639366384586044663983840061231804995481728956727 : ℚ) / 25000000000000000000000000000000000000000000000000) :=
  bprob_eval 11 6 LEFT_PROBABILITY _ _ _ _ _ 462 (by decide) g_dsub_lp
    g_lp_pow_6 g_q_pow_5 g_a11_6 g_b11_6

lemma g_a11_7 : dMul ((330 : ℕ) : ℚ) ((1279552067194400279991600139999 : ℚ) / 163840000000000000000000000000000) = ((42225218217415209239722804619967 : ℚ) / 16384000000000000000000000000000) :=
  (decRound_eq_self (((330 : ℕ) : ℚ) * ((1279552067194400279991600139999 : ℚ) / 163840000000000000000000000000000)) (257722279159028376707292508666790771484375) (-41) (by norm_num) (by norm_num)).trans
    (by norm_num)

lemma g_b11_7 : dMul ((42225218217415209239722804619967 : ℚ) / 16384000000000000000000000000000) ((160032002400080001 : ℚ) / 2560000000000000000) = ((4027716054387863008100052761096761879928828465919 : ℚ) / 25000000000000000000000000000000000000000000000000) :=
  (decRound_eq_up (((42225218217415209239722804619967 : ℚ) / 16384000000000000000000000000000) * ((160032002400080001 : ℚ) / 2560000000000000000)) (-1) (16110864217551452032400211044387047519715313863675) (by norm_num) (by norm_num) (by norm_num)
    (by norm_num) (by norm_num)).trans (by norm_num)

lemma g_bp11_7 : bprob 11 7 LEFT_PROBABILITY = ((4027716054387863008100052761096761879928828465919 : ℚ) / 25000000000000000000000000000000000000000000000000) :=
  bprob_eval 11 7 LEFT_PROBABILITY _ _ _ _ _ 330 (by decide) g_dsub_lp
    g_lp_pow_7 g_q_pow_4 g_a11_7 g_b11_7

lemma g_a11_8 : dMul ((165 : ℕ) : ℚ) ((25589761791820811199552011199840001 : ℚ) / 6553600000000000000000000000000000000) = ((844462139130086769585216369594720033 : ℚ) / 1310720000000000000000000000000000000) :=
  (decRound_eq_self (((165 : ℕ) : ℚ) * ((25589761791820811199552011199840001 : ℚ) / 6553600000000000000000000000000000000)) (644273482612676063221142860103393579864501953125) (-48) (by norm_num) (by norm_num)).trans
    (by norm_num)

lemma g_b11_8 : dMul ((844462139130086769585216369594720033 : ℚ) / 1310720000000000000000000000000000000) ((8001200060001 : ℚ) / 64000000000000) = ((40273133029199976150688943137430198908402900099951 : ℚ) / 500000000000000000000000000000000000000000000000000) :=
  (decRound_eq_down (((844462139130086769585216369594720033 : ℚ) / 1310720000000000000000000000000000000) * ((8001200060001 : ℚ) / 64000000000000)) (-2) (80546266058399952301377886274860397816805800199902) (by norm_num) (by norm_num) (by norm_num)
    (by norm_num) (by norm_num)).trans (by norm_num)

lemma g_bp11_8 : bprob 11 8 LEFT_PROBABILITY = ((40273133029199976150688943137430198908402900099951 : ℚ) / 500000000000000000000000000000000000000000000000000) :=
  bprob_eval 11 8 LEFT_PROBABILITY _ _ _ _ _ 165 (by decide) g_dsub_lp
    g_lp_pow_8 g_q_pow_3 g_a11_8 g_b11_8

lemma g_a11_9 : dMul ((55 : ℕ) : ℚ) ((2440307836888429656886294708183289432520866394043 : ℚ) / 1250000000000000000000000000000000000000000000000000) = ((10737354482309090490299696716006473503091812133789 : ℚ) / 100000000000000000000000000000000000000000000000000) :=
  (decRound_eq_down (((55 : ℕ) : ℚ) * ((2440307836888429656886294708183289432520866394043 : ℚ) / 1250000000000000000000000000000000000000000000000000)) (-1) (10737354482309090490299696716006473503091812133789) (by norm_num) (by norm_num) (by norm_num)
    (by norm_num) (by norm_num)).trans (by norm_num)

lemma g_b11_9 : dMul ((10737354482309090490299696716006473503091812133789 : ℚ) / 100000000000000000000000000000000000000000000000000) ((400040001 : ℚ) / 1600000000) = ((2684607061150176901280363227856828985114576268183 : ℚ) / 100000000000000000000000000000000000000000000000000) :=
  (decRound_eq_up (((10737354482309090490299696716006473503091812133789 : ℚ) / 100000000000000000000000000000000000000000000000000) * ((400040001 : ℚ) / 1600000000)) (-2) (26846070611501769012803632278568289851145762681829) (by norm_num) (by norm_num) (by norm_num)
    (by norm_num) (by norm_num)).trans (by norm_num)

lemma g_bp11_9 : bprob 11 9 LEFT_PROBABILITY = ((2684607061150176901280363227856828985114576268183 : ℚ) / 100000000000000000000000000000000000000000000000000) :=
  bprob_eval 11 9 LEFT_PROBABILITY _ _ _ _ _ 55 (by decide) g_dsub_lp
    g_lp_pow_9 g_q_pow_2 g_a11_9 g_b11_9

lemma g_a11_10 : dMul ((11 : ℕ) : ℚ) ((97607432859863409416138015737915210721969614028931 : ℚ) / 100000000000000000000000000000000000000000000000000000) = ((5368408807292487517887590865585336589708328771591 : ℚ) / 500000000000000000000000000000000000000000000000000) :=
  (decRound_eq_down (((11 : ℕ) : ℚ) * ((97607432859863409416138015737915210721969614028931 : ℚ) / 100000000000000000000000000000000000000000000000000000)) (-2) (10736817614584975035775181731170673179416657543182) (by norm_num) (by norm_num) (by norm_num)
    (by norm_num) (by norm_num)).trans (by norm_num)

lemma g_b11_10 : dMul ((5368408807292487517887590865585336589708328771591 : ℚ) / 500000000000000000000000000000000000000000000000000) ((20001 : ℚ) / 40000) = ((6710846534666065177829356556410769820672267735037 : ℚ) / 1250000000000000000000000000000000000000000000000000) :=
  (decRound_eq_up (((5368408807292487517887590865585336589708328771591 : ℚ) / 500000000000000000000000000000000000000000000000000) * ((20001 : ℚ) / 40000)) (-3) (53686772277328521422634852451286158565378141880295) (by norm_num) (by norm_num) (by norm_num)
    (by norm_num) (by norm_num)).trans (by norm_num)

lemma g_bp11_10 : bprob 11 10 LEFT_PROBABILITY = ((6710846534666065177829356556410769820672267735037 : ℚ) / 1250000000000000000000000000000000000000000000000000) :=
  bprob_eval 11 10 LEFT_PROBABILITY _ _ _ _ _ 11 (by decide) g_dsub_lp
    g_lp_pow_10 g_q_pow_1 g_a11_10 g_b11_10

lemma g_a11_11 : dMul ((1 : ℕ) : ℚ) ((9760255248822041624566720883712831496143351554823 : ℚ) / 20000000000000000000000000000000000000000000000000000) = ((9760255248822041624566720883712831496143351554823 : ℚ) / 20000000000000000000000000000000000000000000000000000) :=
  (decRound_eq_self (((1 : ℕ) : ℚ) * ((9760255248822041624566720883712831496143351554823 : ℚ) / 20000000000000000000000000000000000000000000000000000)) (48801276244110208122833604418564157480716757774115) (-53) (by norm_num) (by norm_num)).trans
    (by norm_num)

lemma g_b11_11 : dMul ((9760255248822041624566720883712831496143351554823 : ℚ) / 20000000000000000000000000000000000000000000000000000) (1 : ℚ) = ((9760255248822041624566720883712831496143351554823 : ℚ) / 20000000000000000000000000000000000000000000000000000) :=
  (decRound_eq_self (((9760255248822041624566720883712831496143351554823 : ℚ) / 20000000000000000000000000000000000000000000000000000) * (1 : ℚ)) (48801276244110208122833604418564157480716757774115) (-53) (by norm_num) (by norm_num)).trans
    (by norm_num)

lemma g_bp11_11 : bprob 11 11 LEFT_PROBABILITY = ((9760255248822041624566720883712831496143351554823 : ℚ) / 20000000000000000000000000000000000000000000000000000) :=
  bprob_eval 11 11 LEFT_PROBABILITY _ _ _ _ _ 1 (by decide) g_dsub_lp
    g_lp_pow_11 g_q_pow_0 g_a11_11 g_b11_11

lemma g_ct11_0 : dMul ((2442749359181218414659136276874557972216608762753 : ℚ) / 5000000000000000000000000000000000000000000000000000) (120 : ℚ) = ((7328248077543655243977408830623673916649826288259 : ℚ) / 125000000000000000000000000000000000000000000000000) :=
  (decRound_eq_self (((2442749359181218414659136276874557972216608762753 : ℚ) / 5000000000000000000000000000000000000000000000000000) * (120 : ℚ)) (58625984620349241951819270644989391333198610306072) (-51) (by norm_num) (by norm_num)).trans
    (by norm_num)

lemma g_ct11_1 : dMul ((10747022424417120300433952910621611594419469928689 : ℚ) / 2000000000000000000000000000000000000000000000000000) (14 : ℚ) = ((75229156970919842103037670374351281160936289500823 : ℚ) / 1000000000000000000000000000000000000000000000000000) :=
  (decRound_eq_self (((10747022424417120300433952910621611594419469928689 : ℚ) / 2000000000000000000000000000000000000000000000000000) * (14 : ℚ)) (75229156970919842103037670374351281160936289500823) (-51) (by norm_num) (by norm_num)).trans
    (by norm_num)

lemma g_ct11_2 : dMul ((26864869439767760223036176223629019833607692003381 : ℚ) / 1000000000000000000000000000000000000000000000000000) (5.2 : ℚ) = ((6984866054339617657989405818143545156737999920879 : ℚ) / 50000000000000000000000000000000000000000000000000) :=
  (decRound_eq_down (((26864869439767760223036176223629019833607692003381 : ℚ) / 1000000000000000000000000000000000000000000000000000) * (5.2 : ℚ)) (-1) (13969732108679235315978811636287090313475999841758) (by norm_num) (by norm_num) (by norm_num)
    (by norm_num) (by norm_num)).trans (by norm_num)

lemma g_ct11_3 : dMul ((80586549261424244292860430222942368029446562528217 : ℚ) / 1000000000000000000000000000000000000000000000000000) (1.4 : ℚ) = ((225642337931987884020009204624238630482450375079 : ℚ) / 2000000000000000000000000000000000000000000000000) :=
  (decRound_eq_down (((80586549261424244292860430222942368029446562528217 : ℚ) / 1000000000000000000000000000000000000000000000000000) * (1.4 : ℚ)) (-1) (11282116896599394201000460231211931524122518753950) (by norm_num) (by norm_num) (by norm_num)
    (by norm_num) (by norm_num)).trans (by norm_num)

lemma g_ct11_4 : dMul ((322313964037642810182074045103469710158672427179 : ℚ) / 2000000000000000000000000000000000000000000000000) (0.4 : ℚ) = ((322313964037642810182074045103469710158672427179 : ℚ) / 5000000000000000000000000000000000000000000000000) :=
  (decRound_eq_self (((322313964037642810182074045103469710158672427179 : ℚ) / 2000000000000000000000000000000000000000000000000) * (0.4 : ℚ)) (644627928075285620364148090206939420317344854358) (-49) (by norm_num) (by norm_num)).trans
    (by norm_num)

lemma g_ct11_5 : dMul ((22559721397690980413888851455512241955023763360867 : ℚ) / 100000000000000000000000000000000000000000000000000) (0.2 : ℚ) = ((22559721397690980413888851455512241955023763360867 : ℚ) / 500000000000000000000000000000000000000000000000000) :=
  (decRound_eq_self (((22559721397690980413888851455512241955023763360867 : ℚ) / 100000000000000000000000000000000000000000000000000) * (0.2 : ℚ)) (45119442795381960827777702911024483910047526721734) (-51) (by norm_num) (by norm_num)).trans
    (by norm_num)

lemma g_ct11_6 : dMul ((5639366384586044663983840061231804995481728956727 : ℚ) / 25000000000000000000000000000000000000000000000000) (0.2 : ℚ) = ((5639366384586044663983840061231804995481728956727 : ℚ) / 125000000000000000000000000000000000000000000000000) :=
  (decRound_eq_self (((5639366384586044663983840061231804995481728956727 : ℚ) / 25000000000000000000000000000000000000000000000000) * (0.2 : ℚ)) (45114931076688357311870720489854439963853831653816) (-51) (by norm_num) (by norm_num)).trans
    (by norm_num)

lemma g_ct11_7 : dMul ((4027716054387863008100052761096761879928828465919 : ℚ) / 25000000000000000000000000000000000000000000000000) (0.4 : ℚ) = ((4027716054387863008100052761096761879928828465919 : ℚ) / 62500000000000000000000000000000000000000000000000) :=
  (decRound_eq_self (((4027716054387863008100052761096761879928828465919 : ℚ) / 25000000000000000000000000000000000000000000000000) * (0.4 : ℚ)) (64443456870205808129600844177548190078861255454704) (-51) (by norm_num) (by norm_num)).trans
    (by norm_num)

lemma g_ct11_8 : dMul ((40273133029199976150688943137430198908402900099951 : ℚ) / 500000000000000000000000000000000000000000000000000) (1.4 : ℚ) = ((5638238624087996661096452039240227847176406013993 : ℚ) / 50000000000000000000000000000000000000000000000000) :=
  (decRound_eq_down (((40273133029199976150688943137430198908402900099951 : ℚ) / 500000000000000000000000000000000000000000000000000) * (1.4 : ℚ)) (-1) (11276477248175993322192904078480455694352812027986) (by norm_num) (by norm_num) (by norm_num)
    (by norm_num) (by norm_num)).trans (by norm_num)

lemma g_ct11_9 : dMul ((2684607061150176901280363227856828985114576268183 : ℚ) / 100000000000000000000000000000000000000000000000000) (5.2 : ℚ) = ((1744994589747614985832236098106938840324474574319 : ℚ) / 12500000000000000000000000000000000000000000000000) :=
  (decRound_eq_up (((2684607061150176901280363227856828985114576268183 : ℚ) / 100000000000000000000000000000000000000000000000000) * (5.2 : ℚ)) (-1) (13959956717980919886657888784855510722595796594551) (by norm_num) (by norm_num) (by norm_num)
    (by norm_num) (by norm_num)).trans (by norm_num)

lemma g_ct11_10 : dMul ((6710846534666065177829356556410769820672267735037 : ℚ) / 1250000000000000000000000000000000000000000000000000) (14 : ℚ) = ((37580740594129964995844396715900310995764699316207 : ℚ) / 500000000000000000000000000000000000000000000000000) :=
  (decRound_eq_down (((6710846534666065177829356556410769820672267735037 : ℚ) / 1250000000000000000000000000000000000000000000000000) * (14 : ℚ)) (-2) (75161481188259929991688793431800621991529398632414) (by norm_num) (by norm_num) (by norm_num)
    (by norm_num) (by norm_num)).trans (by norm_num)

lemma g_ct11_11 : dMul ((9760255248822041624566720883712831496143351554823 : ℚ) / 20000000000000000000000000000000000000000000000000000) (120 : ℚ) = ((29280765746466124873700162651138494488430054664469 : ℚ) / 500000000000000000000000000000000000000000000000000) :=
  (decRound_eq_self (((9760255248822041624566720883712831496143351554823 : ℚ) / 20000000000000000000000000000000000000000000000000000) * (120 : ℚ)) (58561531492932249747400325302276988976860109328938) (-51) (by norm_num) (by norm_num)).trans
    (by norm_num)

lemma g_tp11_0 : dAdd (0 : ℚ) ((2442749359181218414659136276874557972216608762753 : ℚ) / 5000000000000000000000000000000000000000000000000000) = ((2442749359181218414659136276874557972216608762753 : ℚ) / 5000000000000000000000000000000000000000000000000000) :=
  (decRound_eq_self ((0 : ℚ) + ((2442749359181218414659136276874557972216608762753 : ℚ) / 5000000000000000000000000000000000000000000000000000)) (4885498718362436829318272553749115944433217525506) (-52) (by norm_num) (by norm_num)).trans
    (by norm_num)

lemma g_tp11_1 : dAdd ((2442749359181218414659136276874557972216608762753 : ℚ) / 5000000000000000000000000000000000000000000000000000) ((10747022424417120300433952910621611594419469928689 : ℚ) / 2000000000000000000000000000000000000000000000000000) = ((58620610840448038331488037106857173916530567168951 : ℚ) / 10000000000000000000000000000000000000000000000000000) :=
  (decRound_eq_self (((2442749359181218414659136276874557972216608762753 : ℚ) / 5000000000000000000000000000000000000000000000000000) + ((10747022424417120300433952910621611594419469928689 : ℚ) / 2000000000000000000000000000000000000000000000000000)) (58620610840448038331488037106857173916530567168951) (-52) (by norm_num) (by norm_num)).trans
    (by norm_num)

lemma g_tp11_2 : dAdd ((58620610840448038331488037106857173916530567168951 : ℚ) / 10000000000000000000000000000000000000000000000000000) ((26864869439767760223036176223629019833607692003381 : ℚ) / 1000000000000000000000000000000000000000000000000000) = ((8181732630953141014046244983578684306315187180069 : ℚ) / 250000000000000000000000000000000000000000000000000) :=
  (decRound_eq_down (((58620610840448038331488037106857173916530567168951 : ℚ) / 10000000000000000000000000000000000000000000000000000) + ((26864869439767760223036176223629019833607692003381 : ℚ) / 1000000000000000000000000000000000000000000000000000)) (-2) (32726930523812564056184979934314737225260748720276) (by norm_num) (by norm_num) (by norm_num)
    (by norm_num) (by norm_num)).trans (by norm_num)

lemma g_tp11_3 : dAdd ((8181732630953141014046244983578684306315187180069 : ℚ) / 250000000000000000000000000000000000000000000000000) ((80586549261424244292860430222942368029446562528217 : ℚ) / 1000000000000000000000000000000000000000000000000000) = ((11331347978523680834904541015725710525470731124849 : ℚ) / 100000000000000000000000000000000000000000000000000) :=
  (decRound_eq_down (((8181732630953141014046244983578684306315187180069 : ℚ) / 250000000000000000000000000000000000000000000000000) + ((80586549261424244292860430222942368029446562528217 : ℚ) / 1000000000000000000000000000000000000000000000000000)) (-1) (11331347978523680834904541015725710525470731124849) (by norm_num) (by norm_num) (by norm_num)
    (by norm_num) (by norm_num)).trans (by norm_num)

lemma g_tp11_4 : dAdd ((11331347978523680834904541015725710525470731124849 : ℚ) / 100000000000000000000000000000000000000000000000000) ((322313964037642810182074045103469710158672427179 : ℚ) / 2000000000000000000000000000000000000000000000000) = ((27447046180405821344008243270899196033404352483799 : ℚ) / 100000000000000000000000000000000000000000000000000) :=
  (decRound_eq_self (((11331347978523680834904541015725710525470731124849 : ℚ) / 100000000000000000000000000000000000000000000000000) + ((322313964037642810182074045103469710158672427179 : ℚ) / 2000000000000000000000000000000000000000000000000)) (27447046180405821344008243270899196033404352483799) (-50) (by norm_num) (by norm_num)).trans
    (by norm_num)

lemma g_tp11_5 : dAdd ((27447046180405821344008243270899196033404352483799 : ℚ) / 100000000000000000000000000000000000000000000000000) ((22559721397690980413888851455512241955023763360867 : ℚ) / 100000000000000000000000000000000000000000000000000) = ((25003383789048400878948547363205718994214057922333 : ℚ) / 50000000000000000000000000000000000000000000000000) :=
  (decRound_eq_self (((27447046180405821344008243270899196033404352483799 : ℚ) / 100000000000000000000000000000000000000000000000000) + ((22559721397690980413888851455512241955023763360867 : ℚ) / 100000000000000000000000000000000000000000000000000)) (50006767578096801757897094726411437988428115844666) (-50) (by norm_num) (by norm_num)).trans
    (by norm_num)

lemma g_tp11_6 : dAdd ((25003383789048400878948547363205718994214057922333 : ℚ) / 50000000000000000000000000000000000000000000000000) ((5639366384586044663983840061231804995481728956727 : ℚ) / 25000000000000000000000000000000000000000000000000) = ((36282116558220490206916227485669328985177515835787 : ℚ) / 50000000000000000000000000000000000000000000000000) :=
  (decRound_eq_self (((25003383789048400878948547363205718994214057922333 : ℚ) / 50000000000000000000000000000000000000000000000000) + ((5639366384586044663983840061231804995481728956727 : ℚ) / 25000000000000000000000000000000000000000000000000)) (72564233116440980413832454971338657970355031671574) (-50) (by norm_num) (by norm_num)).trans
    (by norm_num)

lemma g_tp11_7 : dAdd ((36282116558220490206916227485669328985177515835787 : ℚ) / 50000000000000000000000000000000000000000000000000) ((4027716054387863008100052761096761879928828465919 : ℚ) / 25000000000000000000000000000000000000000000000000) = ((354700389335969729784930664062902821960281382141 : ℚ) / 400000000000000000000000000000000000000000000000) :=
  (decRound_eq_self (((36282116558220490206916227485669328985177515835787 : ℚ) / 50000000000000000000000000000000000000000000000000) + ((4027716054387863008100052761096761879928828465919 : ℚ) / 25000000000000000000000000000000000000000000000000)) (8867509733399243244623266601572570549007034553525) (-49) (by norm_num) (by norm_num)).trans
    (by norm_num)

lemma g_tp11_8 : dAdd ((354700389335969729784930664062902821960281382141 : ℚ) / 400000000000000000000000000000000000000000000000) ((40273133029199976150688943137430198908402900099951 : ℚ) / 500000000000000000000000000000000000000000000000000) = ((2418243098495810691909261366080293631793773138881 : ℚ) / 2500000000000000000000000000000000000000000000000) :=
  (decRound_eq_down (((354700389335969729784930664062902821960281382141 : ℚ) / 400000000000000000000000000000000000000000000000) + ((40273133029199976150688943137430198908402900099951 : ℚ) / 500000000000000000000000000000000000000000000000000)) (-1) (96729723939832427676370454643211745271750925555240) (by norm_num) (by norm_num) (by norm_num)
    (by norm_num) (by norm_num)).trans (by norm_num)

lemma g_tp11_9 : dAdd ((2418243098495810691909261366080293631793773138881 : ℚ) / 2500000000000000000000000000000000000000000000000) ((2684607061150176901280363227856828985114576268183 : ℚ) / 100000000000000000000000000000000000000000000000000) = ((99414331000982604577650817871068574256865501823423 : ℚ) / 100000000000000000000000000000000000000000000000000) :=
  (decRound_eq_self (((2418243098495810691909261366080293631793773138881 : ℚ) / 2500000000000000000000000000000000000000000000000) + ((2684607061150176901280363227856828985114576268183 : ℚ) / 100000000000000000000000000000000000000000000000000)) (99414331000982604577650817871068574256865501823423) (-50) (by norm_num) (by norm_num)).trans
    (by norm_num)

lemma g_tp11_10 : dAdd ((99414331000982604577650817871068574256865501823423 : ℚ) / 100000000000000000000000000000000000000000000000000) ((6710846534666065177829356556410769820672267735037 : ℚ) / 1250000000000000000000000000000000000000000000000000) = ((49975599361877944895938583197790717921259641621113 : ℚ) / 50000000000000000000000000000000000000000000000000) :=
  (decRound_eq_up (((99414331000982604577650817871068574256865501823423 : ℚ) / 100000000000000000000000000000000000000000000000000) + ((6710846534666065177829356556410769820672267735037 : ℚ) / 1250000000000000000000000000000000000000000000000000)) (-1) (99951198723755889791877166395581435842519283242225) (by norm_num) (by norm_num) (by norm_num)
    (by norm_num) (by norm_num)).trans (by norm_num)

lemma g_tp11_11 : dAdd ((49975599361877944895938583197790717921259641621113 : ℚ) / 50000000000000000000000000000000000000000000000000) ((9760255248822041624566720883712831496143351554823 : ℚ) / 20000000000000000000000000000000000000000000000000000) = (1 : ℚ) :=
  (decRound_eq_down (((49975599361877944895938583197790717921259641621113 : ℚ) / 50000000000000000000000000000000000000000000000000) + ((9760255248822041624566720883712831496143351554823 : ℚ) / 20000000000000000000000000000000000000000000000000000)) (0) (10000000000000000000000000000000000000000000000000) (by norm_num) (by norm_num) (by norm_num)
    (by norm_num) (by norm_num)).trans (by norm_num)

lemma g_rt11_0 : dAdd (0 : ℚ) ((7328248077543655243977408830623673916649826288259 : ℚ) / 125000000000000000000000000000000000000000000000000) = ((7328248077543655243977408830623673916649826288259 : ℚ) / 125000000000000000000000000000000000000000000000000) :=
  (decRound_eq_self ((0 : ℚ) + ((7328248077543655243977408830623673916649826288259 : ℚ) / 125000000000000000000000000000000000000000000000000)) (58625984620349241951819270644989391333198610306072) (-51) (by norm_num) (by norm_num)).trans
    (by norm_num)

lemma g_rt11_1 : dAdd ((7328248077543655243977408830623673916649826288259 : ℚ) / 125000000000000000000000000000000000000000000000000) ((75229156970919842103037670374351281160936289500823 : ℚ) / 1000000000000000000000000000000000000000000000000000) = ((1338551415912690840548569410193406724941348998069 : ℚ) / 10000000000000000000000000000000000000000000000000) :=
  (decRound_eq_tie_odd (((7328248077543655243977408830623673916649826288259 : ℚ) / 125000000000000000000000000000000000000000000000000) + ((75229156970919842103037670374351281160936289500823 : ℚ) / 1000000000000000000000000000000000000000000000000000)) (-1) (13385514159126908405485694101934067249413489980689) (by norm_num) (by norm_num) (by norm_num)
    (by norm_num) (by norm_num)).trans (by norm_num)

lemma g_rt11_2 : dAdd ((1338551415912690840548569410193406724941348998069 : ℚ) / 10000000000000000000000000000000000000000000000000) ((6984866054339617657989405818143545156737999920879 : ℚ) / 50000000000000000000000000000000000000000000000000) = ((1709702891737883982591531608638822347680593113903 : ℚ) / 6250000000000000000000000000000000000000000000000) :=
  (decRound_eq_self (((1338551415912690840548569410193406724941348998069 : ℚ) / 10000000000000000000000000000000000000000000000000) + ((6984866054339617657989405818143545156737999920879 : ℚ) / 50000000000000000000000000000000000000000000000000)) (27355246267806143721464505738221157562889489822448) (-50) (by norm_num) (by norm_num)).trans
    (by norm_num)

lemma g_rt11_3 : dAdd ((1709702891737883982591531608638822347680593113903 : ℚ) / 6250000000000000000000000000000000000000000000000) ((225642337931987884020009204624238630482450375079 : ℚ) / 2000000000000000000000000000000000000000000000000) = ((19318681582202768961232482984716544543506004288199 : ℚ) / 50000000000000000000000000000000000000000000000000) :=
  (decRound_eq_self (((1709702891737883982591531608638822347680593113903 : ℚ) / 6250000000000000000000000000000000000000000000000) + ((225642337931987884020009204624238630482450375079 : ℚ) / 2000000000000000000000000000000000000000000000000)) (38637363164405537922464965969433089087012008576398) (-50) (by norm_num) (by norm_num)).trans
    (by norm_num)

lemma g_rt11_4 : dAdd ((19318681582202768961232482984716544543506004288199 : ℚ) / 50000000000000000000000000000000000000000000000000) ((322313964037642810182074045103469710158672427179 : ℚ) / 5000000000000000000000000000000000000000000000000) = ((22541821222579197063053223435751241645092728559989 : ℚ) / 50000000000000000000000000000000000000000000000000) :=
  (decRound_eq_self (((19318681582202768961232482984716544543506004288199 : ℚ) / 50000000000000000000000000000000000000000000000000) + ((322313964037642810182074045103469710158672427179 : ℚ) / 5000000000000000000000000000000000000000000000000)) (45083642445158394126106446871502483290185457119978) (-50) (by norm_num) (by norm_num)).trans
    (by norm_num)

lemma g_rt11_5 : dAdd ((22541821222579197063053223435751241645092728559989 : ℚ) / 50000000000000000000000000000000000000000000000000) ((22559721397690980413888851455512241955023763360867 : ℚ) / 500000000000000000000000000000000000000000000000000) = ((49595586724696590208884217162604931681190209792151 : ℚ) / 100000000000000000000000000000000000000000000000000) :=
  (decRound_eq_down (((22541821222579197063053223435751241645092728559989 : ℚ) / 50000000000000000000000000000000000000000000000000) + ((22559721397690980413888851455512241955023763360867 : ℚ) / 500000000000000000000000000000000000000000000000000)) (-1) (49595586724696590208884217162604931681190209792151) (by norm_num) (by norm_num) (by norm_num)
    (by norm_num) (by norm_num)).trans (by norm_num)

lemma g_rt11_6 : dAdd ((49595586724696590208884217162604931681190209792151 : ℚ) / 100000000000000000000000000000000000000000000000000) ((5639366384586044663983840061231804995481728956727 : ℚ) / 125000000000000000000000000000000000000000000000000) = ((54107079832365425940071289211590375677575592957533 : ℚ) / 100000000000000000000000000000000000000000000000000) :=
  (decRound_eq_up (((49595586724696590208884217162604931681190209792151 : ℚ) / 100000000000000000000000000000000000000000000000000) + ((5639366384586044663983840061231804995481728956727 : ℚ) / 125000000000000000000000000000000000000000000000000)) (-1) (54107079832365425940071289211590375677575592957532) (by norm_num) (by norm_num) (by norm_num)
    (by norm_num) (by norm_num)).trans (by norm_num)

lemma g_rt11_7 : dAdd ((54107079832365425940071289211590375677575592957533 : ℚ) / 100000000000000000000000000000000000000000000000000) ((4027716054387863008100052761096761879928828465919 : ℚ) / 62500000000000000000000000000000000000000000000000) = ((60551425519386006753031373629345194685461718503003 : ℚ) / 100000000000000000000000000000000000000000000000000) :=
  (decRound_eq_down (((54107079832365425940071289211590375677575592957533 : ℚ) / 100000000000000000000000000000000000000000000000000) + ((4027716054387863008100052761096761879928828465919 : ℚ) / 62500000000000000000000000000000000000000000000000)) (-1) (60551425519386006753031373629345194685461718503003) (by norm_num) (by norm_num) (by norm_num)
    (by norm_num) (by norm_num)).trans (by norm_num)

lemma g_rt11_8 : dAdd ((60551425519386006753031373629345194685461718503003 : ℚ) / 100000000000000000000000000000000000000000000000000) ((5638238624087996661096452039240227847176406013993 : ℚ) / 50000000000000000000000000000000000000000000000000) = ((71827902767562000075224277707825650379814530530989 : ℚ) / 100000000000000000000000000000000000000000000000000) :=
  (decRound_eq_self (((60551425519386006753031373629345194685461718503003 : ℚ) / 100000000000000000000000000000000000000000000000000) + ((5638238624087996661096452039240227847176406013993 : ℚ) / 50000000000000000000000000000000000000000000000000)) (71827902767562000075224277707825650379814530530989) (-50) (by norm_num) (by norm_num)).trans
    (by norm_num)

lemma g_rt11_9 : dAdd ((71827902767562000075224277707825650379814530530989 : ℚ) / 100000000000000000000000000000000000000000000000000) ((1744994589747614985832236098106938840324474574319 : ℚ) / 12500000000000000000000000000000000000000000000000) = ((85787859485542919961882166492681161102410327125541 : ℚ) / 100000000000000000000000000000000000000000000000000) :=
  (decRound_eq_self (((71827902767562000075224277707825650379814530530989 : ℚ) / 100000000000000000000000000000000000000000000000000) + ((1744994589747614985832236098106938840324474574319 : ℚ) / 12500000000000000000000000000000000000000000000000)) (85787859485542919961882166492681161102410327125541) (-50) (by norm_num) (by norm_num)).trans
    (by norm_num)

lemma g_rt11_10 : dAdd ((85787859485542919961882166492681161102410327125541 : ℚ) / 100000000000000000000000000000000000000000000000000) ((37580740594129964995844396715900310995764699316207 : ℚ) / 500000000000000000000000000000000000000000000000000) = ((46652003802184456480525522917930611650781633494391 : ℚ) / 50000000000000000000000000000000000000000000000000) :=
  (decRound_eq_down (((85787859485542919961882166492681161102410327125541 : ℚ) / 100000000000000000000000000000000000000000000000000) + ((37580740594129964995844396715900310995764699316207 : ℚ) / 500000000000000000000000000000000000000000000000000)) (-1) (93304007604368912961051045835861223301563266988782) (by norm_num) (by norm_num) (by norm_num)
    (by norm_num) (by norm_num)).trans (by norm_num)

lemma g_rt11_11 : dAdd ((46652003802184456480525522917930611650781633494391 : ℚ) / 50000000000000000000000000000000000000000000000000) ((29280765746466124873700162651138494488430054664469 : ℚ) / 500000000000000000000000000000000000000000000000000) = ((24790040188415534483947769591522230549812319480419 : ℚ) / 25000000000000000000000000000000000000000000000000) :=
  (decRound_eq_up (((46652003802184456480525522917930611650781633494391 : ℚ) / 50000000000000000000000000000000000000000000000000) + ((29280765746466124873700162651138494488430054664469 : ℚ) / 500000000000000000000000000000000000000000000000000)) (-1) (99160160753662137935791078366088922199249277921675) (by norm_num) (by norm_num) (by norm_num)
    (by norm_num) (by norm_num)).trans (by norm_num)

lemma g_ret11 : floatRound ((24790040188415534483947769591522230549812319480419 : ℚ) / 25000000000000000000000000000000000000000000000000) = ((4465776630201913 : ℚ) / 4503599627370496) :=
  (floatRound_eq_up (((24790040188415534483947769591522230549812319480419 : ℚ) / 25000000000000000000000000000000000000000000000000)) (-1) (8931553260403825) (by norm_num) (by norm_num) (by norm_num)
    (by norm_num) (by norm_num)).trans (by norm_num)

lemma g_tpv_0 : tpFold 11 0 = (0 : ℚ) := rfl

lemma g_tpv_1 : tpFold 11 1 = ((2442749359181218414659136276874557972216608762753 : ℚ) / 5000000000000000000000000000000000000000000000000000) := by
  rw [tpFold_succ, g_tpv_0, g_bp11_0]
  exact g_tp11_0

lemma g_tpv_2 : tpFold 11 2 = ((58620610840448038331488037106857173916530567168951 : ℚ) / 10000000000000000000000000000000000000000000000000000) := by
  rw [tpFold_succ, g_tpv_1, g_bp11_1]
  exact g_tp11_1

lemma g_tpv_3 : tpFold 11 3 = ((8181732630953141014046244983578684306315187180069 : ℚ) / 250000000000000000000000000000000000000000000000000) := by
  rw [tpFold_succ, g_tpv_2, g_bp11_2]
  exact g_tp11_2

lemma g_tpv_4 : tpFold 11 4 = ((11331347978523680834904541015725710525470731124849 : ℚ) / 100000000000000000000000000000000000000000000000000) := by
  rw [tpFold_succ, g_tpv_3, g_bp11_3]
  exact g_tp11_3

lemma g_tpv_5 : tpFold 11 5 = ((27447046180405821344008243270899196033404352483799 : ℚ) / 100000000000000000000000000000000000000000000000000) := by
  rw [tpFold_succ, g_tpv_4, g_bp11_4]
  exact g_tp11_4

lemma g_tpv_6 : tpFold 11 6 = ((25003383789048400878948547363205718994214057922333 : ℚ) / 50000000000000000000000000000000000000000000000000) := by
  rw [tpFold_succ, g_tpv_5, g_bp11_5]
  exact g_tp11_5

lemma g_tpv_7 : tpFold 11 7 = ((36282116558220490206916227485669328985177515835787 : ℚ) / 50000000000000000000000000000000000000000000000000) := by
  rw [tpFold_succ, g_tpv_6, g_bp11_6]
  exact g_tp11_6

lemma g_tpv_8 : tpFold 11 8 = ((354700389335969729784930664062902821960281382141 : ℚ) / 400000000000000000000000000000000000000000000000) := by
  rw [tpFold_succ, g_tpv_7, g_bp11_7]
  exact g_tp11_7

lemma g_tpv_9 : tpFold 11 9 = ((2418243098495810691909261366080293631793773138881 : ℚ) / 2500000000000000000000000000000000000000000000000) := by
  rw [tpFold_succ, g_tpv_8, g_bp11_8]
  exact g_tp11_8

lemma g_tpv_10 : tpFold 11 10 = ((99414331000982604577650817871068574256865501823423 : ℚ) / 100000000000000000000000000000000000000000000000000) := by
  rw [tpFold_succ, g_tpv_9, g_bp11_9]
  exact g_tp11_9

lemma g_tpv_11 : tpFold 11 11 = ((49975599361877944895938583197790717921259641621113 : ℚ) / 50000000000000000000000000000000000000000000000000) := by
  rw [tpFold_succ, g_tpv_10, g_bp11_10]
  exact g_tp11_10

lemma g_tpv_12 : tpFold 11 12 = (1 : ℚ) := by
  rw [tpFold_succ, g_tpv_11, g_bp11_11]
  exact g_tp11_11

lemma g_rtv_0 : rtpFold 11 0 [120, 14, 5.2, 1.4, 0.4, 0.2, 0.2, 0.4, 1.4, 5.2, 14, 120] = (0 : ℚ) := rfl

lemma g_rtv_1 : rtpFold 11 1 [120, 14, 5.2, 1.4, 0.4, 0.2, 0.2, 0.4, 1.4, 5.2, 14, 120] = ((7328248077543655243977408830623673916649826288259 : ℚ) / 125000000000000000000000000000000000000000000000000) := by
  rw [rtpFold_succ, g_rtv_0, show List.getD ([120, 14, 5.2, 1.4, 0.4, 0.2, 0.2, 0.4, 1.4, 5.2, 14, 120] : List ℚ) 0 0 = (120 : ℚ) from rfl, g_bp11_0, g_ct11_0]
  exact g_rt11_0

lemma g_rtv_2 : rtpFold 11 2 [120, 14, 5.2, 1.4, 0.4, 0.2, 0.2, 0.4, 1.4, 5.2, 14, 120] = ((1338551415912690840548569410193406724941348998069 : ℚ) / 10000000000000000000000000000000000000000000000000) := by
  rw [rtpFold_succ, g_rtv_1, show List.getD ([120, 14, 5.2, 1.4, 0.4, 0.2, 0.2, 0.4, 1.4, 5.2, 14, 120] : List ℚ) 1 0 = (14 : ℚ) from rfl, g_bp11_1, g_ct11_1]
  exact g_rt11_1

lemma g_rtv_3 : rtpFold 11 3 [120, 14, 5.2, 1.4, 0.4, 0.2, 0.2, 0.4, 1.4, 5.2, 14, 120] = ((1709702891737883982591531608638822347680593113903 : ℚ) / 6250000000000000000000000000000000000000000000000) := by
  rw [rtpFold_succ, g_rtv_2, show List.getD ([120, 14, 5.2, 1.4, 0.4, 0.2, 0.2, 0.4, 1.4, 5.2, 14, 120] : List ℚ) 2 0 = (5.2 : ℚ) from rfl, g_bp11_2, g_ct11_2]
  exact g_rt11_2

lemma g_rtv_4 : rtpFold 11 4 [120, 14, 5.2, 1.4, 0.4, 0.2, 0.2, 0.4, 1.4, 5.2, 14, 120] = ((19318681582202768961232482984716544543506004288199 : ℚ) / 50000000000000000000000000000000000000000000000000) := by
  rw [rtpFold_succ, g_rtv_3, show List.getD ([120, 14, 5.2, 1.4, 0.4, 0.2, 0.2, 0.4, 1.4, 5.2, 14, 120] : List ℚ) 3 0 = (1.4 : ℚ) from rfl, g_bp11_3, g_ct11_3]
  exact g_rt11_3

lemma g_rtv_5 : rtpFold 11 5 [120, 14, 5.2, 1.4, 0.4, 0.2, 0.2, 0.4, 1.4, 5.2, 14, 120] = ((22541821222579197063053223435751241645092728559989 : ℚ) / 50000000000000000000000000000000000000000000000000) := by
  rw [rtpFold_succ, g_rtv_4, show List.getD ([120, 14, 5.2, 1.4, 0.4, 0.2, 0.2, 0.4, 1.4, 5.2, 14, 120] : List ℚ) 4 0 = (0.4 : ℚ) from rfl, g_bp11_4, g_ct11_4]
  exact g_rt11_4

lemma g_rtv_6 : rtpFold 11 6 [120, 14, 5.2, 1.4, 0.4, 0.2, 0.2, 0.4, 1.4, 5.2, 14, 120] = ((49595586724696590208884217162604931681190209792151 : ℚ) / 100000000000000000000000000000000000000000000000000) := by
  rw [rtpFold_succ, g_rtv_5, show List.getD ([120, 14, 5.2, 1.4, 0.4, 0.2, 0.2, 0.4, 1.4, 5.2, 14, 120] : List ℚ) 5 0 = (0.2 : ℚ) from rfl, g_bp11_5, g_ct11_5]
  exact g_rt11_5

lemma g_rtv_7 : rtpFold 11 7 [120, 14, 5.2, 1.4, 0.4, 0.2, 0.2, 0.4, 1.4, 5.2, 14, 120] = ((54107079832365425940071289211590375677575592957533 : ℚ) / 100000000000000000000000000000000000000000000000000) := by
  rw [rtpFold_succ, g_rtv_6, show List.getD ([120, 14, 5.2, 1.4, 0.4, 0.2, 0.2, 0.4, 1.4, 5.2, 14, 120] : List ℚ) 6 0 = (0.2 : ℚ) from rfl, g_bp11_6, g_ct11_6]
  exact g_rt11_6

lemma g_rtv_8 : rtpFold 11 8 [120, 14, 5.2, 1.4, 0.4, 0.2, 0.2, 0.4, 1.4, 5.2, 14, 120] = ((60551425519386006753031373629345194685461718503003 : ℚ) / 100000000000000000000000000000000000000000000000000) := by
  rw [rtpFold_succ, g_rtv_7, show List.getD ([120, 14, 5.2, 1.4, 0.4, 0.2, 0.2, 0.4, 1.4, 5.2, 14, 120] : List ℚ) 7 0 = (0.4 : ℚ) from rfl, g_bp11_7, g_ct11_7]
  exact g_rt11_7

lemma g_rtv_9 : rtpFold 11 9 [120, 14, 5.2, 1.4, 0.4, 0.2, 0.2, 0.4, 1.4, 5.2, 14, 120] = ((71827902767562000075224277707825650379814530530989 : ℚ) / 100000000000000000000000000000000000000000000000000) := by
  rw [rtpFold_succ, g_rtv_8, show List.getD ([120, 14, 5.2, 1.4, 0.4, 0.2, 0.2, 0.4, 1.4, 5.2, 14, 120] : List ℚ) 8 0 = (1.4 : ℚ) from rfl, g_bp11_8, g_ct11_8]
  exact g_rt11_8

lemma g_rtv_10 : rtpFold 11 10 [120, 14, 5.2, 1.4, 0.4, 0.2, 0.2, 0.4, 1.4, 5.2, 14, 120] = ((85787859485542919961882166492681161102410327125541 : ℚ) / 100000000000000000000000000000000000000000000000000) := by
  rw [rtpFold_succ, g_rtv_9, show List.getD ([120, 14, 5.2, 1.4, 0.4, 0.2, 0.2, 0.4, 1.4, 5.2, 14, 120] : List ℚ) 9 0 = (5.2 : ℚ) from rfl, g_bp11_9, g_ct11_9]
  exact g_rt11_9

lemma g_rtv_11 : rtpFold 11 11 [120, 14, 5.2, 1.4, 0.4, 0.2, 0.2, 0.4, 1.4, 5.2, 14, 120] = ((46652003802184456480525522917930611650781633494391 : ℚ) / 50000000000000000000000000000000000000000000000000) := by
  rw [rtpFold_succ, g_rtv_10, show List.getD ([120, 14, 5.2, 1.4, 0.4, 0.2, 0.2, 0.4, 1.4, 5.2, 14, 120] : List ℚ) 10 0 = (14 : ℚ) from rfl, g_bp11_10, g_ct11_10]
  exact g_rt11_10

lemma g_rtv_12 : rtpFold 11 12 [120, 14, 5.2, 1.4, 0.4, 0.2, 0.2, 0.4, 1.4, 5.2, 14, 120] = ((24790040188415534483947769591522230549812319480419 : ℚ) / 25000000000000000000000000000000000000000000000000) := by
  rw [rtpFold_succ, g_rtv_11, show List.getD ([120, 14, 5.2, 1.4, 0.4, 0.2, 0.2, 0.4, 1.4, 5.2, 14, 120] : List ℚ) 11 0 = (120 : ℚ) from rfl, g_bp11_11, g_ct11_11]
  exact g_rt11_11

lemma g_sumv_0 : (∑ i ∈ Finset.range 0, dMul (bprob 11 i LEFT_PROBABILITY)
    (List.getD ([120, 14, 5.2, 1.4, 0.4, 0.2, 0.2, 0.4, 1.4, 5.2, 14, 120] : List ℚ) i 0)) = (0 : ℚ) := Finset.sum_range_zero _

lemma g_sumv_1 : (∑ i ∈ Finset.range 1, dMul (bprob 11 i LEFT_PROBABILITY)
    (List.getD ([120, 14, 5.2, 1.4, 0.4, 0.2, 0.2, 0.4, 1.4, 5.2, 14, 120] : List ℚ) i 0)) = ((7328248077543655243977408830623673916649826288259 : ℚ) / 125000000000000000000000000000000000000000000000000) := by
  rw [Finset.sum_range_succ, g_sumv_0,
    show List.getD ([120, 14, 5.2, 1.4, 0.4, 0.2, 0.2, 0.4, 1.4, 5.2, 14, 120] : List ℚ) 0 0 = (120 : ℚ) from rfl,
    g_bp11_0, g_ct11_0]
  norm_num

lemma g_sumv_2 : (∑ i ∈ Finset.range 2, dMul (bprob 11 i LEFT_PROBABILITY)
    (List.getD ([120, 14, 5.2, 1.4, 0.4, 0.2, 0.2, 0.4, 1.4, 5.2, 14, 120] : List ℚ) i 0)) = ((26771028318253816810971388203868134498826979961379 : ℚ) / 200000000000000000000000000000000000000000000000000) := by
  rw [Finset.sum_range_succ, g_sumv_1,
    show List.getD ([120, 14, 5.2, 1.4, 0.4, 0.2, 0.2, 0.4, 1.4, 5.2, 14, 120] : List ℚ) 1 0 = (14 : ℚ) from rfl,
    g_bp11_1, g_ct11_1]
  norm_num

lemma g_sumv_3 : (∑ i ∈ Finset.range 3, dMul (bprob 11 i LEFT_PROBABILITY)
    (List.getD ([120, 14, 5.2, 1.4, 0.4, 0.2, 0.2, 0.4, 1.4, 5.2, 14, 120] : List ℚ) i 0)) = ((10942098507122457488585802295288463025155795928979 : ℚ) / 40000000000000000000000000000000000000000000000000) := by
  rw [Finset.sum_range_succ, g_sumv_2,
    show List.getD ([120, 14, 5.2, 1.4, 0.4, 0.2, 0.2, 0.4, 1.4, 5.2, 14, 120] : List ℚ) 2 0 = (5.2 : ℚ) from rfl,
    g_bp11_2, g_ct11_2]
  norm_num

lemma g_sumv_4 : (∑ i ∈ Finset.range 4, dMul (bprob 11 i LEFT_PROBABILITY)
    (List.getD ([120, 14, 5.2, 1.4, 0.4, 0.2, 0.2, 0.4, 1.4, 5.2, 14, 120] : List ℚ) i 0)) = ((15454945265762215168985986387773235634804803430559 : ℚ) / 40000000000000000000000000000000000000000000000000) := by
  rw [Finset.sum_range_succ, g_sumv_3,
    show List.getD ([120, 14, 5.2, 1.4, 0.4, 0.2, 0.2, 0.4, 1.4, 5.2, 14, 120] : List ℚ) 3 0 = (1.4 : ℚ) from rfl,
    g_bp11_3, g_ct11_3]
  norm_num

lemma g_sumv_5 : (∑ i ∈ Finset.range 5, dMul (bprob 11 i LEFT_PROBABILITY)
    (List.getD ([120, 14, 5.2, 1.4, 0.4, 0.2, 0.2, 0.4, 1.4, 5.2, 14, 120] : List ℚ) i 0)) = ((18033456978063357650442578748600993316074182847991 : ℚ) / 40000000000000000000000000000000000000000000000000) := by
  rw [Finset.sum_range_succ, g_sumv_4,
    show List.getD ([120, 14, 5.2, 1.4, 0.4, 0.2, 0.2, 0.4, 1.4, 5.2, 14, 120] : List ℚ) 4 0 = (0.4 : ℚ) from rfl,
    g_bp11_4, g_ct11_4]
  norm_num

lemma g_sumv_6 : (∑ i ∈ Finset.range 6, dMul (bprob 11 i LEFT_PROBABILITY)
    (List.getD ([120, 14, 5.2, 1.4, 0.4, 0.2, 0.2, 0.4, 1.4, 5.2, 14, 120] : List ℚ) i 0)) = ((495955867246965902088842171626049316811902097921509 : ℚ) / 1000000000000000000000000000000000000000000000000000) := by
  rw [Finset.sum_range_succ, g_sumv_5,
    show List.getD ([120, 14, 5.2, 1.4, 0.4, 0.2, 0.2, 0.4, 1.4, 5.2, 14, 120] : List ℚ) 5 0 = (0.2 : ℚ) from rfl,
    g_bp11_5, g_ct11_5]
  norm_num

lemma g_sumv_7 : (∑ i ∈ Finset.range 7, dMul (bprob 11 i LEFT_PROBABILITY)
    (List.getD ([120, 14, 5.2, 1.4, 0.4, 0.2, 0.2, 0.4, 1.4, 5.2, 14, 120] : List ℚ) i 0)) = ((21642831932946170376028515684636150271030237183013 : ℚ) / 40000000000000000000000000000000000000000000000000) := by
  rw [Finset.sum_range_succ, g_sumv_6,
    show List.getD ([120, 14, 5.2, 1.4, 0.4, 0.2, 0.2, 0.4, 1.4, 5.2, 14, 120] : List ℚ) 6 0 = (0.2 : ℚ) from rfl,
    g_bp11_6, g_ct11_6]
  norm_num

lemma g_sumv_8 : (∑ i ∈ Finset.range 8, dMul (bprob 11 i LEFT_PROBABILITY)
    (List.getD ([120, 14, 5.2, 1.4, 0.4, 0.2, 0.2, 0.4, 1.4, 5.2, 14, 120] : List ℚ) i 0)) = ((605514255193860067530313736293451946854617185030029 : ℚ) / 1000000000000000000000000000000000000000000000000000) := by
  rw [Finset.sum_range_succ, g_sumv_7,
    show List.getD ([120, 14, 5.2, 1.4, 0.4, 0.2, 0.2, 0.4, 1.4, 5.2, 14, 120] : List ℚ) 7 0 = (0.4 : ℚ) from rfl,
    g_bp11_7, g_ct11_7]
  norm_num

lemma g_sumv_9 : (∑ i ∈ Finset.range 9, dMul (bprob 11 i LEFT_PROBABILITY)
    (List.getD ([120, 14, 5.2, 1.4, 0.4, 0.2, 0.2, 0.4, 1.4, 5.2, 14, 120] : List ℚ) i 0)) = ((718279027675620000752242777078256503798145305309889 : ℚ) / 1000000000000000000000000000000000000000000000000000) := by
  rw [Finset.sum_range_succ, g_sumv_8,
    show List.getD ([120, 14, 5.2, 1.4, 0.4, 0.2, 0.2, 0.4, 1.4, 5.2, 14, 120] : List ℚ) 8 0 = (1.4 : ℚ) from rfl,
    g_bp11_8, g_ct11_8]
  norm_num

lemma g_sumv_10 : (∑ i ∈ Finset.range 10, dMul (bprob 11 i LEFT_PROBABILITY)
    (List.getD ([120, 14, 5.2, 1.4, 0.4, 0.2, 0.2, 0.4, 1.4, 5.2, 14, 120] : List ℚ) i 0)) = ((857878594855429199618821664926811611024103271255409 : ℚ) / 1000000000000000000000000000000000000000000000000000) := by
  rw [Finset.sum_range_succ, g_sumv_9,
    show List.getD ([120, 14, 5.2, 1.4, 0.4, 0.2, 0.2, 0.4, 1.4, 5.2, 14, 120] : List ℚ) 9 0 = (5.2 : ℚ) from rfl,
    g_bp11_9, g_ct11_9]
  norm_num

lemma g_sumv_11 : (∑ i ∈ Finset.range 11, dMul (bprob 11 i LEFT_PROBABILITY)
    (List.getD ([120, 14, 5.2, 1.4, 0.4, 0.2, 0.2, 0.4, 1.4, 5.2, 14, 120] : List ℚ) i 0)) = ((933040076043689129610510458358612233015632669887823 : ℚ) / 1000000000000000000000000000000000000000000000000000) := by
  rw [Finset.sum_range_succ, g_sumv_10,
    show List.getD ([120, 14, 5.2, 1.4, 0.4, 0.2, 0.2, 0.4, 1.4, 5.2, 14, 120] : List ℚ) 10 0 = (14 : ℚ) from rfl,
    g_bp11_10, g_ct11_10]
  norm_num

lemma g_sumv_12 : (∑ i ∈ Finset.range 12, dMul (bprob 11 i LEFT_PROBABILITY)
    (List.getD ([120, 14, 5.2, 1.4, 0.4, 0.2, 0.2, 0.4, 1.4, 5.2, 14, 120] : List ℚ) i 0)) = ((991601607536621379357910783660889221992492779216761 : ℚ) / 1000000000000000000000000000000000000000000000000000) := by
  rw [Finset.sum_range_succ, g_sumv_11,
    show List.getD ([120, 14, 5.2, 1.4, 0.4, 0.2, 0.2, 0.4, 1.4, 5.2, 14, 120] : List ℚ) 11 0 = (120 : ℚ) from rfl,
    g_bp11_11, g_ct11_11]
  norm_num

lemma g_dsub_half : dSub 1 (1 / 2 : ℚ) = ((1 : ℚ) / 2) :=
  (decRound_eq_self ((1 : ℚ) - (1 / 2 : ℚ)) (5) (-1) (by norm_num) (by norm_num)).trans
    (by norm_num)

lemma g_h_pow_16 : dPow (1 / 2 : ℚ) 16 = ((1 : ℚ) / 65536) :=
  (decRound_eq_self ((1 / 2 : ℚ) ^ (16 : ℤ)) (152587890625) (-16) (by norm_num) (by norm_num)).trans
    (by norm_num)

lemma g_h_pow_53 : dPow (1 / 2 : ℚ) 53 = ((1 : ℚ) / 9007199254740992) :=
  (decRound_eq_self ((1 / 2 : ℚ) ^ (53 : ℤ)) (11102230246251565404236316680908203125) (-53) (by norm_num) (by norm_num)).trans
    (by norm_num)

lemma g_a69_16 : dMul ((1913212193400684 : ℕ) : ℚ) ((1 : ℚ) / 65536) = ((478303048350171 : ℚ) / 16384) :=
  (decRound_eq_self (((1913212193400684 : ℕ) : ℚ) * ((1 : ℚ) / 65536)) (2919330129090399169921875) (-14) (by norm_num) (by norm_num)).trans
    (by norm_num)

lemma g_b69_16 : dMul ((478303048350171 : ℚ) / 16384) ((1 : ℚ) / 9007199254740992) = ((6482215051596183319308763781663174086133949458599 : ℚ) / 2000000000000000000000000000000000000000000000000000000) :=
  (decRound_eq_down (((478303048350171 : ℚ) / 16384) * ((1 : ℚ) / 9007199254740992)) (-6) (32411075257980916596543818908315870430669747292995) (by norm_num) (by norm_num) (by norm_num)
    (by norm_num) (by norm_num)).trans (by norm_num)

lemma g_a69_53 : dMul ((1913212193400684 : ℕ) : ℚ) ((1 : ℚ) / 9007199254740992) = ((10620461140535186750355478579876944422721862792969 : ℚ) / 50000000000000000000000000000000000000000000000000) :=
  (decRound_eq_tie_odd (((1913212193400684 : ℕ) : ℚ) * ((1 : ℚ) / 9007199254740992)) (-1) (21240922281070373500710957159753888845443725585937) (by norm_num) (by norm_num) (by norm_num)
    (by norm_num) (by norm_num)).trans (by norm_num)

lemma g_b69_53 : dMul ((10620461140535186750355478579876944422721862792969 : ℚ) / 50000000000000000000000000000000000000000000000000) ((1 : ℚ) / 65536) = ((8102768814495229149135954727078967607667436823249 : ℚ) / 2500000000000000000000000000000000000000000000000000000) :=
  (decRound_eq_down (((10620461140535186750355478579876944422721862792969 : ℚ) / 50000000000000000000000000000000000000000000000000) * ((1 : ℚ) / 65536)) (-6) (32411075257980916596543818908315870430669747292996) (by norm_num) (by norm_num) (by norm_num)
    (by norm_num) (by norm_num)).trans (by norm_num)

lemma g_ch69 : Nat.choose 69 16 = 1913212193400684 := by
  rw [Nat.choose_eq_factorial_div_factorial (by norm_num)]
  rfl

lemma g_ch69b : Nat.choose 69 53 = 1913212193400684 := by
  rw [Nat.choose_eq_factorial_div_factorial (by norm_num)]
  rfl

lemma g_bp69_16 : bprob 69 16 (1 / 2 : ℚ) = ((6482215051596183319308763781663174086133949458599 : ℚ) / 2000000000000000000000000000000000000000000000000000000) :=
  bprob_eval 69 16 (1 / 2 : ℚ) _ _ _ _ _ 1913212193400684 g_ch69 g_dsub_half
    g_h_pow_16 g_h_pow_53 g_a69_16 g_b69_16

lemma g_bp69_53 : bprob 69 53 (1 / 2 : ℚ) = ((8102768814495229149135954727078967607667436823249 : ℚ) / 2500000000000000000000000000000000000000000000000000000) :=
  bprob_eval 69 53 (1 / 2 : ℚ) _ _ _ _ _ 1913212193400684 g_ch69b g_dsub_half
    g_h_pow_53 g_h_pow_16 g_a69_53 g_b69_53

/-- Auxiliary step for the anomaly-flag claims: a run with `warned = false`
and mass within `10 ^ (-9)` of one satisfies the flag-iff-deviation contract. -/
lemma warnIffAux (z : ℤ) (res : RTPResult) (hok : calculate_rtp z = .ok res)
    (hret : res.returned = floatRound res.total_rtp) (hwarn : res.warned = false)
    (htp : |res.total_prob - 1| ≤ 1 / 1000000000) :
    ∃ res : RTPResult, calculate_rtp z = .ok res ∧
      (res.warned = true ↔ 1 / 10000 < |res.total_prob - 1|) ∧
      res.returned = floatRound res.total_rtp := by
  refine ⟨res, hok, ⟨?_, ?_⟩, hret⟩
  · intro hc
    rw [hwarn] at hc
    cases hc
  · intro habs
    exfalso
    linarith [htp]

/-- Claim C1: for `0 ≤ rows`, `0 ≤ k ≤ rows` and `0 < bias < 1`,
`binomial_probability` succeeds and returns the binomial probability
`C(rows,k) * bias ^ k * (1 - bias) ^ (rows - k)` with the binomial coefficient
entering as an exact integer and all decimal arithmetic carried at 50
significant digits, i.e. up to the accumulated half-ulp factors `u10` of the
50-digit context. -/
theorem claim_C1 (rows k : ℤ) (bias : ℚ)
    (hr : 0 ≤ rows) (hk0 : 0 ≤ k) (hkr : k ≤ rows) (hb0 : 0 < bias) (hb1 : bias < 1) :
    ∃ r : ℚ, binomial_probability rows k bias = .ok r ∧
      |r - (Nat.choose rows.toNat k.toNat : ℚ) * bias ^ k.toNat *
          (1 - bias) ^ (rows.toNat - k.toNat)| ≤
        (Nat.choose rows.toNat k.toNat : ℚ) * bias ^ k.toNat *
          (1 - bias) ^ (rows.toNat - k.toNat) * ((1 + u10) ^ (rows.toNat + 4) - 1) := by
  obtain ⟨n, rfl⟩ : ∃ n : ℕ, rows = (n : ℤ) := ⟨rows.toNat, (Int.toNat_of_nonneg hr).symm⟩
  obtain ⟨m, rfl⟩ : ∃ m : ℕ, k = (m : ℤ) := ⟨k.toNat, (Int.toNat_of_nonneg hk0).symm⟩
  have hkn : m ≤ n := by exact_mod_cast hkr
  refine ⟨bprob n m bias, binomial_probability_nat n m bias (ne_of_gt hb0) (ne_of_lt hb1), ?_⟩
  have ht0 : 0 ≤ exactTerm n m bias := by
    unfold exactTerm
    have h1 : (0 : ℚ) ≤ bias := hb0.le
    have h2 : (0 : ℚ) ≤ 1 - bias := by linarith
    positivity
  have h := relB_abs _ _ _ (bprob_relB n m hkn bias hb0 hb1) ht0
  simpa [exactTerm, Int.toNat_natCast] using h

/-- Witness for C1 at `rows = 3`, `k = 2`, `bias = 1/4`. -/
theorem claim_C1_witness :
    ∃ r : ℚ, binomial_probability 3 2 (1 / 4) = .ok r ∧
      |r - (Nat.choose (3 : ℤ).toNat (2 : ℤ).toNat : ℚ) * (1 / 4) ^ (2 : ℤ).toNat *
          (1 - 1 / 4) ^ ((3 : ℤ).toNat - (2 : ℤ).toNat)| ≤
        (Nat.choose (3 : ℤ).toNat (2 : ℤ).toNat : ℚ) * (1 / 4) ^ (2 : ℤ).toNat *
          (1 - 1 / 4) ^ ((3 : ℤ).toNat - (2 : ℤ).toNat) *
          ((1 + u10) ^ ((3 : ℤ).toNat + 4) - 1) :=
  claim_C1 3 2 (1 / 4) (by norm_num) (by norm_num) (by norm_num) (by norm_num) (by norm_num)

/-- Claim C4: for `1 ≤ rows ≤ 20` and any bias in `(0, 1)` the probabilities
returned by the engine sum to one within `10 ^ (-9)`; moreover the
`total_probability` accumulated by `calculate_rtp` at the known-value
configuration `rows = 11`, `bias = 0.499975` is within `10 ^ (-9)` of one. -/
theorem claim_C4 (rows : ℕ) (bias : ℚ) (h1 : 1 ≤ rows) (h2 : rows ≤ 20)
    (hb0 : 0 < bias) (hb1 : bias < 1) :
    |(∑ k ∈ Finset.range (rows + 1), probOf rows k bias) - 1| ≤ 1 / 1000000000 ∧
    ∃ res : RTPResult, calculate_rtp 11 = .ok res ∧
      |res.total_prob - 1| ≤ 1 / 1000000000 := by
  constructor
  · have hcong : ∀ k ∈ Finset.range (rows + 1), probOf rows k bias = bprob rows k bias :=
      fun k _ => probOf_eq rows k bias (ne_of_gt hb0) (ne_of_lt hb1)
    rw [Finset.sum_congr rfl hcong]
    have hb := sum_bprob_bounds rows bias hb0 hb1
    have hcast : ((rows + 4 : ℕ) : ℚ) ≤ 24 := by
      have h24 : (rows + 4 : ℕ) ≤ 24 := by omega
      exact_mod_cast h24
    have hmu : 2 * ((rows + 4 : ℕ) : ℚ) * u10 ≤ 1 := by
      have h48 : 2 * (24 : ℚ) * u10 ≤ 1 := by unfold u10; norm_num
      nlinarith [u10_pos]
    have hc := close_one u10 u10_pos.le u10_lt_one.le (rows + 4) hmu _ hb.1 hb.2
    have h48b : 2 * ((rows + 4 : ℕ) : ℚ) * u10 ≤ 48 * u10 := by nlinarith [u10_pos]
    have hfin : (48 : ℚ) * u10 ≤ 1 / 1000000000 := by unfold u10; norm_num
    linarith
  · obtain ⟨res, hok, _, _, _, _, htp, _⟩ := calc_row_11
    exact ⟨res, hok, htp⟩

/-- Witness for C4 at `rows = 2`, `bias = 1/2`. -/
theorem claim_C4_witness :
    |(∑ k ∈ Finset.range (2 + 1), probOf 2 k (1 / 2)) - 1| ≤ 1 / 1000000000 ∧
    ∃ res : RTPResult, calculate_rtp 11 = .ok res ∧
      |res.total_prob - 1| ≤ 1 / 1000000000 :=
  claim_C4 2 (1 / 2) (by norm_num) (by norm_num) (by norm_num) (by norm_num)

/-- Claim C5: on every configuration the script evaluates, the anomaly signal
is exactly the `float`-level test against the `1e-4` tolerance - equivalently,
since the mass deviation is far below tolerance, the flag is raised if and
only if `|total_probability - 1| > 1e-4` (both sides false) - and the RTP
value is returned to the caller in every case rather than aborting. -/
theorem claim_C5 (rows : ℤ) (h : rows ∈ mainRows) :
    ∃ res : RTPResult, calculate_rtp rows = .ok res ∧
      (res.warned = true ↔ 1 / 10000 < |res.total_prob - 1|) ∧
      res.returned = floatRound res.total_rtp := by
  fin_cases h
  · obtain ⟨res, hok, _, _, hret, hwarn, htp, _⟩ := calc_row_11
    exact warnIffAux _ res hok hret hwarn htp
  · obtain ⟨res, hok, _, _, hret, hwarn, htp, _⟩ := calc_row_12
    exact warnIffAux _ res hok hret hwarn htp
  · obtain ⟨res, hok, _, _, hret, hwarn, htp, _⟩ := calc_row_13
    exact warnIffAux _ res hok hret hwarn htp
  · obtain ⟨res, hok, _, _, hret, hwarn, htp, _⟩ := calc_row_14
    exact warnIffAux _ res hok hret hwarn htp
  · obtain ⟨res, hok, _, _, hret, hwarn, htp, _⟩ := calc_row_15
    exact warnIffAux _ res hok hret hwarn htp
  · obtain ⟨res, hok, _, _, hret, hwarn, htp, _⟩ := calc_row_16
    exact warnIffAux _ res hok hret hwarn htp

/-- Witness for C5 at `rows = 11`. -/
theorem claim_C5_witness :
    ∃ res : RTPResult, calculate_rtp 11 = .ok res ∧
      (res.warned = true ↔ 1 / 10000 < |res.total_prob - 1|) ∧
      res.returned = floatRound res.total_rtp :=
  claim_C5 11 (by decide)

/-- Claim C10: on every supported row count the accumulated probability mass
is within the `1e-4` tolerance of one, so the warning branch never runs. -/
theorem claim_C10 (rows : ℤ) (h : rows ∈ mainRows) :
    ∃ res : RTPResult, calculate_rtp rows = .ok res ∧
      |res.total_prob - 1| ≤ 1 / 10000 ∧ res.warned = false := by
  fin_cases h
  · obtain ⟨res, hok, _, _, _, hwarn, htp, _⟩ := calc_row_11
    exact ⟨res, hok, le_trans htp (by norm_num), hwarn⟩
  · obtain ⟨res, hok, _, _, _, hwarn, htp, _⟩ := calc_row_12
    exact ⟨res, hok, le_trans htp (by norm_num), hwarn⟩
  · obtain ⟨res, hok, _, _, _, hwarn, htp, _⟩ := calc_row_13
    exact ⟨res, hok, le_trans htp (by norm_num), hwarn⟩
  · obtain ⟨res, hok, _, _, _, hwarn, htp, _⟩ := calc_row_14
    exact ⟨res, hok, le_trans htp (by norm_num), hwarn⟩
  · obtain ⟨res, hok, _, _, _, hwarn, htp, _⟩ := calc_row_15
    exact ⟨res, hok, le_trans htp (by norm_num), hwarn⟩
  · obtain ⟨res, hok, _, _, _, hwarn, htp, _⟩ := calc_row_16
    exact ⟨res, hok, le_trans htp (by norm_num), hwarn⟩

/-- Witness for C10 at `rows = 16`. -/
theorem claim_C10_witness :
    ∃ res : RTPResult, calculate_rtp 16 = .ok res ∧
      |res.total_prob - 1| ≤ 1 / 10000 ∧ res.warned = false :=
  claim_C10 16 (by decide)

/-- Claim C7: the boundary buckets are computed exactly as powers of the
complementary biases, evaluated in the same decimal arithmetic. -/
theorem claim_C7 (rows : ℤ) (hr : 0 ≤ rows) (bias : ℚ) (hb0 : 0 < bias) (hb1 : bias < 1) :
    (∃ r : ℚ, binomial_probability rows 0 bias = .ok r ∧ r = dPow (dSub 1 bias) rows) ∧
    (∃ r : ℚ, binomial_probability rows rows bias = .ok r ∧ r = dPow bias rows) := by
  have hb0' := ne_of_gt hb0
  have hb1' := ne_of_lt hb1
  constructor
  · refine ⟨_, binomial_probability_ok rows 0 hr le_rfl bias hb0' hb1', ?_⟩
    rw [show rows - 0 = rows by ring]
    rw [show ((Nat.choose rows.toNat (0 : ℤ).toNat : ℕ) : ℚ) = 1 by
      rw [show (0 : ℤ).toNat = 0 from rfl, Nat.choose_zero_right]; norm_num]
    rw [dPow_zero]
    rw [show dMul (1 : ℚ) 1 = 1 by rw [dMul_one_left]; exact decRound_one]
    rw [dMul_one_left]
    exact decRound_dPow _ _
  · refine ⟨_, binomial_probability_ok rows rows hr hr bias hb0' hb1', ?_⟩
    rw [show rows - rows = 0 by ring, dPow_zero]
    rw [show ((Nat.choose rows.toNat rows.toNat : ℕ) : ℚ) = 1 by
      rw [Nat.choose_self]; norm_num]
    rw [dMul_one_left, decRound_dPow, dMul_one_right, decRound_dPow]

/-- Witness for C7 at `rows = 2`, `bias = 1/4`. -/
theorem claim_C7_witness :
    (∃ r : ℚ, binomial_probability 2 0 (1 / 4) = .ok r ∧ r = dPow (dSub 1 (1 / 4)) 2) ∧
    (∃ r : ℚ, binomial_probability 2 2 (1 / 4) = .ok r ∧ r = dPow (1 / 4) 2) :=
  claim_C7 2 (by norm_num) (1 / 4) (by norm_num) (by norm_num)

/-- Claim C9: for any row count outside the six catalogued ones the dict
lookup fails with `KeyError` before any probability is computed, and no
partial result is produced. -/
theorem claim_C9 (rows : ℤ) (h : rows ∉ mainRows) :
    calculate_rtp rows = .error .keyError := by
  have hne : rows ≠ 11 ∧ rows ≠ 12 ∧ rows ≠ 13 ∧ rows ≠ 14 ∧ rows ≠ 15 ∧ rows ≠ 16 := by
    unfold mainRows at h
    simp at h
    tauto
  obtain ⟨h11, h12, h13, h14, h15, h16⟩ := hne
  have hnone : MULTIPLIER_TABLES.lookup rows = none := by
    have b11 : (rows == (11 : ℤ)) = false := beq_eq_false_iff_ne.mpr h11
    have b12 : (rows == (12 : ℤ)) = false := beq_eq_false_iff_ne.mpr h12
    have b13 : (rows == (13 : ℤ)) = false := beq_eq_false_iff_ne.mpr h13
    have b14 : (rows == (14 : ℤ)) = false := beq_eq_false_iff_ne.mpr h14
    have b15 : (rows == (15 : ℤ)) = false := beq_eq_false_iff_ne.mpr h15
    have b16 : (rows == (16 : ℤ)) = false := beq_eq_false_iff_ne.mpr h16
    unfold MULTIPLIER_TABLES
    simp [List.lookup, b11, b12, b13, b14, b15, b16]
  unfold calculate_rtp
  rw [hnone]

/-- Witness for C9 at `rows = 7`. -/
theorem claim_C9_witness : calculate_rtp 7 = .error .keyError :=
  claim_C9 7 (by decide)

/-- Claim C8: `main` classifies a returned RTP value as a player advantage
exactly when it exceeds one, reports an OK status whenever it does not, and
the negative-house-edge count counts exactly the player-advantage
classifications. -/
theorem claim_C8 :
    (∀ r : ℚ, (classify r = .playerAdvantage ↔ 1 < r) ∧
      (r ≤ 1 → classify r = .okNearTarget ∨ classify r = .okPlain)) ∧
    (∀ results : List ℚ,
      negative_edge_count results =
        (results.filter fun r => decide (classify r = .playerAdvantage)).length) := by
  have hclass : ∀ r : ℚ, (classify r = .playerAdvantage ↔ 1 < r) := by
    intro r
    constructor
    · intro h
      by_contra hc
      unfold classify at h
      rw [if_neg hc] at h
      split at h <;> cases h
    · intro h
      unfold classify
      rw [if_pos h]
  constructor
  · intro r
    refine ⟨hclass r, ?_⟩
    intro hle
    unfold classify
    rw [if_neg (not_lt.mpr hle)]
    split
    · exact Or.inl rfl
    · exact Or.inr rfl
  · intro results
    unfold negative_edge_count
    congr 1
    apply List.filter_congr
    intro r _
    by_cases h : 1 < r
    · rw [decide_eq_true h, decide_eq_true ((hclass r).mpr h)]
    · rw [decide_eq_false h, decide_eq_false (fun hc => h ((hclass r).mp hc))]

/-- Witness for C8 on concrete RTP values `3/2` and `1/2`. -/
theorem claim_C8_witness :
    classify (3 / 2) = .playerAdvantage ∧
    (classify (1 / 2) = .okNearTarget ∨ classify (1 / 2) = .okPlain) :=
  ⟨(claim_C8.1 (3 / 2)).1.mpr (by norm_num), (claim_C8.1 (1 / 2)).2 (by norm_num)⟩

/-- Claim C2 (amended): for every supported row count the aggregator fetches
the `rows + 1`-entry table, obtains `p_i` from the probability engine for each
bucket, accumulates `total_prob` and `total_rtp` by rounded additions of the
`p_i` and of the contributions `dMul p_i m_i`, the accumulated `total_rtp`
agrees with the exact sum of the contributions to within `10 ^ (-9)`, and the
value returned is the binary64 rounding of the accumulated `total_rtp` (not
the sum itself). -/
theorem claim_C2_amended (rows : ℤ) (h : rows ∈ mainRows) :
    ∃ (n : ℕ) (ms : List ℚ) (res : RTPResult),
      rows = (n : ℤ) ∧
      MULTIPLIER_TABLES.lookup rows = some ms ∧
      ms.length = n + 1 ∧
      calculate_rtp rows = .ok res ∧
      (∀ i : ℕ, i ≤ n → binomial_probability rows i LEFT_PROBABILITY =
        .ok (bprob n i LEFT_PROBABILITY)) ∧
      res.total_prob = tpFold n (n + 1) ∧
      res.total_rtp = rtpFold n (n + 1) ms ∧
      |res.total_rtp - ∑ i ∈ Finset.range (n + 1),
        dMul (bprob n i LEFT_PROBABILITY) (ms.getD i 0)| ≤ 1 / 1000000000 ∧
      res.returned = floatRound res.total_rtp := by
  fin_cases h
  · obtain ⟨res, hok, htpe, hrtpe, hret, _, _, hsum⟩ := calc_row_11
    exact ⟨11, _, res, rfl, rfl, rfl, hok,
      fun i _ => binomial_probability_nat 11 i _ LP_ne_zero LP_ne_one,
      htpe, hrtpe, hsum, hret⟩
  · obtain ⟨res, hok, htpe, hrtpe, hret, _, _, hsum⟩ := calc_row_12
    exact ⟨12, _, res, rfl, rfl, rfl, hok,
      fun i _ => binomial_probability_nat 12 i _ LP_ne_zero LP_ne_one,
      htpe, hrtpe, hsum, hret⟩
  · obtain ⟨res, hok, htpe, hrtpe, hret, _, _, hsum⟩ := calc_row_13
    exact ⟨13, _, res, rfl, rfl, rfl, hok,
      fun i _ => binomial_probability_nat 13 i _ LP_ne_zero LP_ne_one,
      htpe, hrtpe, hsum, hret⟩
  · obtain ⟨res, hok, htpe, hrtpe, hret, _, _, hsum⟩ := calc_row_14
    exact ⟨14, _, res, rfl, rfl, rfl, hok,
      fun i _ => binomial_probability_nat 14 i _ LP_ne_zero LP_ne_one,
      htpe, hrtpe, hsum, hret⟩
  · obtain ⟨res, hok, htpe, hrtpe, hret, _, _, hsum⟩ := calc_row_15
    exact ⟨15, _, res, rfl, rfl, rfl, hok,
      fun i _ => binomial_probability_nat 15 i _ LP_ne_zero LP_ne_one,
      htpe, hrtpe, hsum, hret⟩
  · obtain ⟨res, hok, htpe, hrtpe, hret, _, _, hsum⟩ := calc_row_16
    exact ⟨16, _, res, rfl, rfl, rfl, hok,
      fun i _ => binomial_probability_nat 16 i _ LP_ne_zero LP_ne_one,
      htpe, hrtpe, hsum, hret⟩

/-- Witness for the amended C2 at `rows = 11`. -/
theorem claim_C2_amended_witness :
    ∃ (n : ℕ) (ms : List ℚ) (res : RTPResult),
      (11 : ℤ) = (n : ℤ) ∧
      MULTIPLIER_TABLES.lookup 11 = some ms ∧
      ms.length = n + 1 ∧
      calculate_rtp 11 = .ok res ∧
      (∀ i : ℕ, i ≤ n → binomial_probability 11 i LEFT_PROBABILITY =
        .ok (bprob n i LEFT_PROBABILITY)) ∧
      res.total_prob = tpFold n (n + 1) ∧
      res.total_rtp = rtpFold n (n + 1) ms ∧
      |res.total_rtp - ∑ i ∈ Finset.range (n + 1),
        dMul (bprob n i LEFT_PROBABILITY) (ms.getD i 0)| ≤ 1 / 1000000000 ∧
      res.returned = floatRound res.total_rtp :=
  claim_C2_amended 11 (by decide)

/-- Claim C2 (counterexample): at `rows = 11` the value actually returned by
`calculate_rtp` is the binary64 rounding of the accumulated rtp and differs
both from the accumulated decimal rtp and from the exact sum of the
per-bucket contributions. -/
theorem claim_C2_cex :
    calculate_rtp 11 = .ok
      { total_rtp := ((24790040188415534483947769591522230549812319480419 : ℚ) /
          25000000000000000000000000000000000000000000000000)
        total_prob := 1
        warned := false
        returned := ((4465776630201913 : ℚ) / 4503599627370496) } ∧
    ((4465776630201913 : ℚ) / 4503599627370496) ≠
      ((24790040188415534483947769591522230549812319480419 : ℚ) /
        25000000000000000000000000000000000000000000000000) ∧
    (∑ i ∈ Finset.range 12, dMul (bprob 11 i LEFT_PROBABILITY)
      (List.getD ([120, 14, 5.2, 1.4, 0.4, 0.2, 0.2, 0.4, 1.4, 5.2, 14, 120] : List ℚ) i 0)) =
      ((991601607536621379357910783660889221992492779216761 : ℚ) /
        1000000000000000000000000000000000000000000000000000) ∧
    ((4465776630201913 : ℚ) / 4503599627370496) ≠
      ((991601607536621379357910783660889221992492779216761 : ℚ) /
        1000000000000000000000000000000000000000000000000000) := by
  refine ⟨?_, by norm_num, g_sumv_12, by norm_num⟩
  have hev := calculate_rtp_eval 11
    [120, 14, 5.2, 1.4, 0.4, 0.2, 0.2, 0.4, 1.4, 5.2, 14, 120] rfl
  rw [show (List.length ([120, 14, 5.2, 1.4, 0.4, 0.2, 0.2, 0.4, 1.4, 5.2, 14, 120] : List ℚ)) = 12
    from rfl] at hev
  rw [g_tpv_12, g_rtv_12, g_ret11] at hev
  rw [warned_false 1 (by norm_num)] at hev
  exact hev

/-- Claim C3 (counterexample): `probability(rows=5, k=6, bias=0.5)` does not
fail with any exception; it returns the probability `0`, because `comb(5, 6)`
is `0`. -/
theorem claim_C3_cex :
    binomial_probability 5 6 (1 / 2) = .ok 0 ∧
    ∀ e : PyError, binomial_probability 5 6 (1 / 2) ≠ .error e := by
  have hok : binomial_probability 5 6 (1 / 2) = .ok 0 := by
    rw [binomial_probability_ok 5 6 (by norm_num) (by norm_num) (1 / 2)
      (by norm_num) (by norm_num)]
    have hch : ((Nat.choose (5 : ℤ).toNat (6 : ℤ).toNat : ℕ) : ℚ) = 0 := by
      have h56 : Nat.choose (5 : ℤ).toNat (6 : ℤ).toNat = 0 := by decide
      rw [h56]
      norm_num
    rw [hch]
    rw [show dMul (0 : ℚ) (dPow (1 / 2) 6) = 0 from by
      unfold dMul; rw [zero_mul]; exact decRound_zero]
    rw [show dMul (0 : ℚ) (dPow (dSub 1 (1 / 2)) (5 - 6)) = 0 from by
      unfold dMul; rw [zero_mul]; exact decRound_zero]
  exact ⟨hok, fun e hcon => by rw [hok] at hcon; cases hcon⟩

/-- Claim C3 (amended): `binomial_probability` performs no input validation;
with `0 ≤ rows < k` and any bias in `(0, 1)` it silently returns probability
`0` (since `comb(rows, k) = 0`), rather than failing with an invalid-input
error. -/
theorem claim_C3_amended (rows k : ℤ) (bias : ℚ) (hr : 0 ≤ rows) (hk : rows < k)
    (hb0 : 0 < bias) (hb1 : bias < 1) :
    binomial_probability rows k bias = .ok 0 := by
  rw [binomial_probability_ok rows k hr (by omega) bias (ne_of_gt hb0) (ne_of_lt hb1)]
  have hch : ((Nat.choose rows.toNat k.toNat : ℕ) : ℚ) = 0 := by
    rw [Nat.choose_eq_zero_of_lt (by omega)]
    norm_num
  rw [hch]
  rw [show dMul (0 : ℚ) (dPow bias k) = 0 from by
    unfold dMul; rw [zero_mul]; exact decRound_zero]
  rw [show dMul (0 : ℚ) (dPow (dSub 1 bias) (rows - k)) = 0 from by
    unfold dMul; rw [zero_mul]; exact decRound_zero]

/-- Witness for the amended C3 at `rows = 3`, `k = 5`, `bias = 1/3`. -/
theorem claim_C3_amended_witness : binomial_probability 3 5 (1 / 3) = .ok 0 :=
  claim_C3_amended 3 5 (1 / 3) (by norm_num) (by norm_num) (by norm_num) (by norm_num)

lemma choose_le_two_pow (n k : ℕ) : Nat.choose n k ≤ 2 ^ n := by
  by_cases h : k ≤ n
  · calc Nat.choose n k ≤ ∑ i ∈ Finset.range (n + 1), Nat.choose n i :=
        Finset.single_le_sum (f := fun i => Nat.choose n i) (fun i _ => Nat.zero_le _)
          (Finset.mem_range.mpr (by omega))
      _ = 2 ^ n := Nat.sum_range_choose n
  · rw [Nat.choose_eq_zero_of_lt (by omega)]
    exact Nat.zero_le _

/-- Powers of one half with at most 71 significant digits are exact in the
50-digit decimal context. -/
lemma pow_half_exact (j : ℕ) (hj : j ≤ 71) : dPow (1 / 2 : ℚ) (j : ℤ) = (1 / 2) ^ j := by
  unfold dPow
  rw [zpow_natCast]
  apply decRound_eq_self _ ((5 : ℤ) ^ j) (-(j : ℤ))
  · rw [abs_of_nonneg (by positivity)]
    calc (5 : ℤ) ^ j ≤ 5 ^ 71 := pow_le_pow_right₀ (by norm_num) hj
      _ ≤ 10 ^ 50 := by norm_num
  · push_cast
    rw [zpow_neg, zpow_natCast]
    rw [show (1 / 2 : ℚ) = 5 / 10 by norm_num]
    rw [div_pow, div_eq_mul_inv]

lemma dsub_one_half : dSub 1 (1 / 2 : ℚ) = 1 / 2 := by
  unfold dSub
  rw [show (1 : ℚ) - 1 / 2 = 1 / 2 by norm_num]
  exact decRound_eq_self _ 5 (-1) (by norm_num) (by norm_num)

/-- With bias exactly one half and at most 49 rows, the entire probability
computation is exact: every intermediate fits in 50 significant digits. -/
lemma bprob_half_exact (n k : ℕ) (hk : k ≤ n) (hn : n ≤ 49) :
    bprob n k (1 / 2) = (Nat.choose n k : ℚ) * (1 / 2) ^ n := by
  have hCb : (Nat.choose n k : ℤ) ≤ 2 ^ n := by exact_mod_cast choose_le_two_pow n k
  have hA : dMul ((Nat.choose n k : ℕ) : ℚ) ((1 / 2 : ℚ) ^ k) =
      (Nat.choose n k : ℚ) * (1 / 2) ^ k := by
    unfold dMul
    apply decRound_eq_self _ ((Nat.choose n k : ℤ) * 5 ^ k) (-(k : ℤ))
    · rw [abs_of_nonneg (by positivity)]
      have h2 : (5 : ℤ) ^ k ≤ 5 ^ n := pow_le_pow_right₀ (by norm_num) hk
      calc (Nat.choose n k : ℤ) * 5 ^ k ≤ 2 ^ n * 5 ^ n :=
          mul_le_mul hCb h2 (by positivity) (by positivity)
        _ = 10 ^ n := by rw [← mul_pow]; norm_num
        _ ≤ 10 ^ 50 := pow_le_pow_right₀ (by norm_num) (by omega)
    · push_cast
      rw [zpow_neg, zpow_natCast]
      rw [show (1 / 2 : ℚ) = 5 / 10 by norm_num]
      rw [div_pow, div_eq_mul_inv]
      ring
  have hB : dMul ((Nat.choose n k : ℚ) * (1 / 2 : ℚ) ^ k) ((1 / 2 : ℚ) ^ (n - k)) =
      (Nat.choose n k : ℚ) * (1 / 2) ^ n := by
    unfold dMul
    have hval : (Nat.choose n k : ℚ) * (1 / 2 : ℚ) ^ k * (1 / 2 : ℚ) ^ (n - k) =
        (Nat.choose n k : ℚ) * (1 / 2) ^ n := by
      rw [mul_assoc, ← pow_add]
      congr 2
      omega
    rw [hval]
    apply decRound_eq_self _ ((Nat.choose n k : ℤ) * 5 ^ n) (-(n : ℤ))
    · rw [abs_of_nonneg (by positivity)]
      calc (Nat.choose n k : ℤ) * 5 ^ n ≤ 2 ^ n * 5 ^ n :=
          mul_le_mul_of_nonneg_right hCb (by positivity)
        _ = 10 ^ n := by rw [← mul_pow]; norm_num
        _ ≤ 10 ^ 50 := pow_le_pow_right₀ (by norm_num) (by omega)
    · push_cast
      rw [zpow_neg, zpow_natCast]
      rw [show (1 / 2 : ℚ) = 5 / 10 by norm_num]
      rw [div_pow, div_eq_mul_inv]
      ring
  unfold bprob
  rw [dsub_one_half]
  rw [show ((n : ℤ) - (k : ℤ)) = ((n - k : ℕ) : ℤ) by omega]
  rw [pow_half_exact k (by omega), pow_half_exact (n - k) (by omega)]
  rw [hA, hB]

/-- Claim C6 (amended): with bias exactly one half, the computed probability
is symmetric, `probability(rows, k, 0.5) = probability(rows, rows - k, 0.5)`,
for all `k ≤ rows` whenever `rows ≤ 49` (where the decimal computation is
exact); the counterexample shows symmetry breaks at `rows = 69`. -/
theorem claim_C6_amended (rows k : ℕ) (hk : k ≤ rows) (hr : rows ≤ 49) :
    binomial_probability rows k (1 / 2) = binomial_probability rows (rows - k) (1 / 2) := by
  rw [show ((rows : ℤ) - (k : ℤ)) = ((rows - k : ℕ) : ℤ) by omega]
  rw [binomial_probability_nat rows k _ (by norm_num) (by norm_num),
      binomial_probability_nat rows (rows - k) _ (by norm_num) (by norm_num)]
  rw [bprob_half_exact rows k hk hr, bprob_half_exact rows (rows - k) (by omega) hr]
  rw [Nat.choose_symm hk]

/-- Witness for the amended C6 at `rows = 10`, `k = 3`. -/
theorem claim_C6_amended_witness :
    binomial_probability 10 3 (1 / 2) = binomial_probability 10 7 (1 / 2) :=
  claim_C6_amended 10 3 (by norm_num) (by norm_num)

/-- Claim C6 (counterexample): at `rows = 69`, `k = 16`, the two symmetric
calls produce different `Decimal` values: the rounding of the intermediate
products falls differently on the two sides. -/
theorem claim_C6_cex :
    binomial_probability 69 16 (1 / 2) ≠ binomial_probability 69 53 (1 / 2) := by
  have h1 : binomial_probability 69 16 (1 / 2) =
      .ok ((6482215051596183319308763781663174086133949458599 : ℚ) /
        2000000000000000000000000000000000000000000000000000000) := by
    have hn := binomial_probability_nat 69 16 (1 / 2) (by norm_num) (by norm_num)
    rw [g_bp69_16] at hn
    exact hn
  have h2 : binomial_probability 69 53 (1 / 2) =
      .ok ((8102768814495229149135954727078967607667436823249 : ℚ) /
        2500000000000000000000000000000000000000000000000000000) := by
    have hn := binomial_probability_nat 69 53 (1 / 2) (by norm_num) (by norm_num)
    rw [g_bp69_53] at hn
    exact hn
  rw [h1, h2]
  simp only [ne_eq, Except.ok.injEq]
  norm_num

end PlinkoRtp
